import Mathlib

/-!
Verification of the retrieval-and-constraint pipeline of the MutualFundChatbot
repository.  The Python sources under `backend/rag/` are shallowly embedded:
text is `String` (with helpers over `List Char`), floats are `ℝ`, Python dicts
are structures or association lists, and the external collaborators (the
generation model, the embedding cache/hash, the on-disk config file and the
wall clock) are explicit parameters.  Regex matches are embedded as decidable
existence checks equivalent to `re.search`/`re.findall` succeeding.
-/

/-! ### Basic character/string utilities shared by the embedded components -/

/-- Python `\s` whitespace class (ASCII part). -/
def isPySpace (c : Char) : Bool :=
  c == ' ' || c == '\t' || c == '\n' || c == '\r' || c == '\x0b' || c == '\x0c'

/-- Python regex `\w` word character (ASCII part). -/
def isWordChar (c : Char) : Bool :=
  c.isAlpha || c.isDigit || c == '_'

/-- Python `str.lower()` (ASCII case folding). -/
def lowerStr (s : String) : String :=
  ⟨s.toList.map Char.toLower⟩

/-- `pre` is a prefix of `l` (char-for-char). -/
def leadsL : List Char → List Char → Bool
  | [], _ => true
  | _ :: _, [] => false
  | a :: as, b :: bs => a == b && leadsL as bs

/-- `n` occurs somewhere inside `h` (Python `n in h` on strings). -/
def subL (n : List Char) : List Char → Bool
  | [] => leadsL n []
  | c :: cs => leadsL n (c :: cs) || subL n cs

/-- Python substring test `needle in hay`. -/
def containsStr (needle hay : String) : Bool :=
  subL needle.toList hay.toList

/-- Python `hay.startswith(needle)`. -/
def startsW (needle hay : String) : Bool :=
  leadsL needle.toList hay.toList

/-- Number of leading characters of `l` satisfying `p`. -/
def countWhile (p : Char → Bool) : List Char → Nat
  | [] => 0
  | c :: cs => if p c then countWhile p cs + 1 else 0

/-- Drop leading Python-whitespace characters. -/
def dropWs : List Char → List Char
  | [] => []
  | c :: cs => if isPySpace c then dropWs cs else c :: cs

/-- Python `str.strip()` on a character list. -/
def stripL (l : List Char) : List Char :=
  ((dropWs l.reverse).reverse |> dropWs)

/-- Python `str.strip()`. -/
def pyStrip (s : String) : String :=
  ⟨stripL s.toList⟩

/-! ### PII regular expressions (`QueryClassifier.PII_PATTERNS`)

Each pattern is embedded as a decidable test for the existence of a match,
i.e. the truth value of `re.findall(pattern, query, re.IGNORECASE)` being
non-empty.  `\b` is the usual word/non-word boundary; string edges count as
non-word. -/

/-- `\b` holds before a word character when the previous character (if any)
is not a word character. -/
def nonWordB : Option Char → Bool
  | none => true
  | some c => !isWordChar c

/-- `\b` after a word character: next character absent or not a word char. -/
def boundaryAfterW : List Char → Bool
  | [] => true
  | c :: _ => !isWordChar c

/-- General `\b` between the previous character and the next character `c`:
exactly one side is a word character (string edges are non-word). -/
def boundaryB (prev : Option Char) (c : Char) : Bool :=
  (match prev with
   | none => false
   | some p => isWordChar p) != isWordChar c

/-- Run a positional matcher at every start position of the list, tracking
the previous character (for `\b`); true when some position matches, which is
exactly `re.search`/`re.findall` succeeding. -/
def scanAny (m : Option Char → List Char → Bool) : Option Char → List Char → Bool
  | _, [] => false
  | prev, c :: cs => m prev (c :: cs) || scanAny m (some c) cs

/-- `\b[A-Z]{5}[0-9]{4}[A-Z]\b` (with IGNORECASE, so any-case letters)
matching at the current position. -/
def panHere (prev : Option Char) (s : List Char) : Bool :=
  nonWordB prev &&
  match s with
  | a :: b :: c :: d :: e :: f :: g :: h :: i :: j :: rest =>
    a.isAlpha && b.isAlpha && c.isAlpha && d.isAlpha && e.isAlpha &&
    f.isDigit && g.isDigit && h.isDigit && i.isDigit && j.isAlpha &&
    boundaryAfterW rest
  | _ => false

/-- PII pattern `pan`. -/
def panMatch (q : String) : Bool :=
  scanAny panHere none q.toList

/-- Consume exactly four digits. -/
def digits4 : List Char → Option (List Char)
  | a :: b :: c :: d :: rest =>
    if a.isDigit && b.isDigit && c.isDigit && d.isDigit then some rest else none
  | _ => none

/-- Consume an optional single whitespace character (`\s?`). -/
def optSpace : List Char → List Char
  | [] => []
  | c :: cs => if isPySpace c then cs else c :: cs

/-- `\b[0-9]{4}\s?[0-9]{4}\s?[0-9]{4}\b` matching at the current position. -/
def aadhaarHere (prev : Option Char) (s : List Char) : Bool :=
  nonWordB prev &&
  match digits4 s with
  | none => false
  | some r1 =>
    match digits4 (optSpace r1) with
    | none => false
    | some r2 =>
      match digits4 (optSpace r2) with
      | none => false
      | some r3 => boundaryAfterW r3

/-- PII pattern `aadhaar`. -/
def aadhaarMatch (q : String) : Bool :=
  scanAny aadhaarHere none q.toList

/-- `\b\d{9,18}\b`: a maximal digit run of length 9..18 delimited by
boundaries (a longer or shorter run cannot match at any inner position). -/
def acctHere (prev : Option Char) (s : List Char) : Bool :=
  nonWordB prev &&
  (let L := countWhile Char.isDigit s
   decide (9 ≤ L) && decide (L ≤ 18) && boundaryAfterW (s.drop L))

/-- PII pattern `account_number`. -/
def acctMatch (q : String) : Bool :=
  scanAny acctHere none q.toList

/-- `\b\d{4,6}\b` at the current position (used by the `otp` pattern). -/
def digitRun46Here (prev : Option Char) (s : List Char) : Bool :=
  nonWordB prev &&
  (let L := countWhile Char.isDigit s
   decide (4 ≤ L) && decide (L ≤ 6) && boundaryAfterW (s.drop L))

/-- Case-insensitive literal `otp` at the head of the list. -/
def otpLit : List Char → Option (Char × List Char)
  | a :: b :: c :: rest =>
    if a.toLower == 'o' && b.toLower == 't' && c.toLower == 'p' then
      some (c, rest)
    else none
  | _ => none

/-- `.*otp` (IGNORECASE; `.` does not match a newline): `otp` occurs later
with no intervening newline. -/
def dotStarOtp : List Char → Bool
  | [] => false
  | c :: cs => (otpLit (c :: cs)).isSome || (c != '\n' && dotStarOtp cs)

/-- `.*\b\d{4,6}\b` starting after the character `prev`. -/
def dotStarDigits : Char → List Char → Bool
  | prev, [] => digitRun46Here (some prev) []
  | prev, c :: cs => digitRun46Here (some prev) (c :: cs) || (c != '\n' && dotStarDigits c cs)

/-- First alternative `\b\d{4,6}\b.*otp` at the current position. -/
def otpAHere (prev : Option Char) (s : List Char) : Bool :=
  nonWordB prev &&
  (let L := countWhile Char.isDigit s
   decide (4 ≤ L) && decide (L ≤ 6) && boundaryAfterW (s.drop L) && dotStarOtp (s.drop L))

/-- Second alternative `\botp.*\b\d{4,6}\b` at the current position. -/
def otpBHere (prev : Option Char) (s : List Char) : Bool :=
  nonWordB prev &&
  match otpLit s with
  | some (lastC, rest) => dotStarDigits lastC rest
  | none => false

/-- PII pattern `otp` (an alternation of the two forms above). -/
def otpMatch (q : String) : Bool :=
  scanAny otpAHere none q.toList || scanAny otpBHere none q.toList

/-- Character class `[A-Za-z0-9._%+-]` of the email local part. -/
def isLocalChar (c : Char) : Bool :=
  c.isAlpha || c.isDigit || c == '.' || c == '_' || c == '%' || c == '+' || c == '-'

/-- Character class `[A-Za-z0-9.-]` of the email domain part. -/
def isDomChar (c : Char) : Bool :=
  c.isAlpha || c.isDigit || c == '.' || c == '-'

/-- Character class `[A-Z|a-z]` of the email TLD part (the literal `|` is a
member of the class as written in the source pattern). -/
def isTldChar (c : Char) : Bool :=
  c.isAlpha || c == '|'

/-- `\b` after the character `last` given the remaining characters. -/
def boundaryAfterC (last : Char) : List Char → Bool
  | [] => isWordChar last
  | c :: _ => isWordChar last != isWordChar c

/-- Extension of a TLD match: stop here with a boundary, or keep consuming
TLD characters (the existential over the greedy/backtracked length). -/
def tldExt : Char → List Char → Bool
  | last, [] => boundaryAfterC last []
  | last, c :: cs => boundaryAfterC last (c :: cs) || (isTldChar c && tldExt c cs)

/-- `\.[A-Z|a-z]{2,}\b` variant: at least two TLD characters then `\b`. -/
def emailTld : List Char → Bool
  | c1 :: c2 :: rest => isTldChar c1 && isTldChar c2 && tldExt c2 rest
  | _ => false

/-- After at least one domain character: either a literal `.` followed by a
TLD match, or one more domain character (existence over all splits, which is
what backtracking explores). -/
def domExt : List Char → Bool
  | [] => false
  | c :: cs => (if c == '.' then emailTld cs else false) || (isDomChar c && domExt cs)

/-- `[A-Za-z0-9.-]+\.[A-Z|a-z]{2,}\b` at the current position. -/
def emailDomain : List Char → Bool
  | [] => false
  | c :: cs => isDomChar c && domExt cs

/-- `\b[A-Za-z0-9._%+-]+@[A-Za-z0-9.-]+\.[A-Z|a-z]{2,}\b` at the current
position: a maximal local-part run (nothing shorter can be followed by `@`),
the `@`, then the domain/TLD existential. -/
def emailHere (prev : Option Char) (s : List Char) : Bool :=
  match s with
  | [] => false
  | c :: _ =>
    boundaryB prev c && isLocalChar c &&
    (let L := countWhile isLocalChar s
     match s.drop L with
     | '@' :: rest => emailDomain rest
     | _ => false)

/-- PII pattern `email`. -/
def emailMatch (q : String) : Bool :=
  scanAny emailHere none q.toList

/-- `[6-9]` first digit of an Indian mobile number. -/
def is69 (c : Char) : Bool :=
  c == '6' || c == '7' || c == '8' || c == '9'

/-- Consume exactly `n` digits. -/
def digitsN : Nat → List Char → Option (List Char)
  | 0, s => some s
  | _ + 1, [] => none
  | n + 1, c :: cs => if c.isDigit then digitsN n cs else none

/-- `\b[6-9]\d{9}\b` at the current position. -/
def phone1Here (prev : Option Char) (s : List Char) : Bool :=
  nonWordB prev &&
  match s with
  | [] => false
  | c :: cs =>
    is69 c &&
    match digitsN 9 cs with
    | some r => boundaryAfterW r
    | none => false

/-- `\b\+91[6-9]\d{9}\b` at the current position (`\b` before `+` needs a
preceding word character, since `+` is not a word character). -/
def phone2Here (prev : Option Char) (s : List Char) : Bool :=
  match s with
  | '+' :: '9' :: '1' :: c :: cs =>
    boundaryB prev '+' && is69 c &&
    match digitsN 9 cs with
    | some r => boundaryAfterW r
    | none => false
  | _ => false

/-- PII pattern `phone`. -/
def phoneMatch (q : String) : Bool :=
  scanAny phone1Here none q.toList || scanAny phone2Here none q.toList

/-- `QueryClassifier._detect_pii`: the returned dict is non-empty (truthy)
iff some pattern matches. -/
def detectPII (q : String) : Bool :=
  panMatch q || aadhaarMatch q || acctMatch q || otpMatch q || emailMatch q || phoneMatch q

/-! ### Query classifier (`backend/rag/query_classifier.py`) -/

/-- `QueryClassifier.GREETING_PATTERNS`. -/
def greetingPatterns : List String :=
  ["hello", "hi", "hey", "greetings", "good morning", "good afternoon",
   "good evening", "good night", "namaste", "namaskar", "thanks", "thank you",
   "bye", "goodbye", "see you", "how are you", "how do you do"]

/-- `QueryClassifier.FACTUAL_KEYWORDS`. -/
def factualKeywords : List String :=
  ["expense ratio", "exit load", "entry load", "minimum sip", "sip amount",
   "lock-in", "lock in", "riskometer", "benchmark", "nav", "aum",
   "fund manager", "launch date", "investment objective", "category",
   "download", "statement", "factsheet", "what is", "how to",
   "when", "where", "who", "which", "details", "information",
   "description", "describe", "overview", "explain", "meaning of",
   "capital-gains", "capital gains", "statements"]

/-- `QueryClassifier.GENERAL_FINANCE_KEYWORDS`. -/
def generalFinanceKeywords : List String :=
  ["what is", "what are", "what does", "what do",
   "explain", "define", "definition", "meaning",
   "how does", "how do", "how is", "how are",
   "tell me about", "can you explain", "can you tell me",
   "mutual fund", "mutual funds", "expense ratio", "exit load",
   "sip", "systematic investment plan", "lumpsum", "lump sum",
   "nav", "net asset value", "aum", "assets under management",
   "benchmark", "riskometer", "lock-in period", "lock in period",
   "direct plan", "regular plan", "growth option", "dividend option",
   "equity fund", "debt fund", "hybrid fund", "elss", "tax saver",
   "large cap", "mid cap", "small cap", "flexi cap", "multi cap",
   "fund manager", "amc", "asset management company", "sebi", "amfi",
   "factsheet", "portfolio", "diversification", "volatility", "returns",
   "investment", "investing", "investor", "redemption", "switch",
   "stp", "systematic transfer plan", "swp", "systematic withdrawal plan"]

/-- `QueryClassifier.OPINIONATED_KEYWORDS` (these are used as plain
substrings by the source, including the entries spelled like regexes). -/
def opinionatedKeywords : List String :=
  ["should i", "should i buy", "should i sell", "should i invest",
   "is it good", "is it bad", "is.*good", "is.*bad", "good for", "bad for",
   "recommend", "advice", "opinion", "suggest",
   "best fund", "worst fund", "compare returns", "which is better",
   "performance", "returns", "profit", "loss", "gain",
   "worth", "worth it", "should invest", "good investment"]

/-- Factual exclusions checked in `_is_opinionated`. -/
def factualExclusions : List String :=
  ["how to download", "download statements", "download capital",
   "description of", "overview of", "meaning of", "what is the meaning"]

/-- `a.*b` search continuation: `b` occurs with no intervening newline. -/
def seqAfter (b : List Char) : List Char → Bool
  | [] => leadsL b []
  | c :: cs => leadsL b (c :: cs) || (c != '\n' && seqAfter b cs)

/-- `re.search("a.*b", q)` succeeding: some occurrence of `a` followed, on
the same line, by an occurrence of `b`. -/
def seq2 (a b : List Char) : List Char → Bool
  | [] => false
  | c :: cs =>
    (leadsL a (c :: cs) && seqAfter b ((c :: cs).drop a.length)) || seq2 a b cs

/-- One comparison regex of `_is_opinionated`. -/
def seqSearch (a b q : String) : Bool :=
  seq2 a.toList b.toList q.toList

/-- The six comparison patterns of `_is_opinionated`. -/
def comparisonSearch (ql : String) : Bool :=
  seqSearch "which" "better" ql || seqSearch "which" "best" ql ||
  seqSearch "which" "worse" ql || seqSearch "compare" "fund" ql ||
  seqSearch "better" "than" ql || seqSearch "worse" "than" ql

/-- `QueryClassifier._is_factual` (argument is the lowercased query). -/
def isFactual (ql : String) : Bool :=
  greetingPatterns.any (fun g => containsStr g ql) ||
  generalFinanceKeywords.any (fun k => containsStr k ql) ||
  factualKeywords.any (fun k => containsStr k ql) ||
  ["what", "when", "where", "who", "which", "how"].any (fun w => startsW w ql)

/-- `QueryClassifier._is_opinionated` (argument is the lowercased query). -/
def isOpinionated (ql : String) : Bool :=
  if factualExclusions.any (fun e => containsStr e ql) then false
  else
    opinionatedKeywords.any (fun k => containsStr k ql) || comparisonSearch ql

/-- Fund indicators of `is_general_finance_question`. -/
def fundIndicators : List String :=
  ["hdfc", "elss", "flexi cap", "large and mid cap",
   "fund name", "scheme", "specific fund"]

/-- General question patterns of `is_general_finance_question`. -/
def generalPatterns : List String :=
  ["what is", "what are", "what does", "what do",
   "explain", "define", "definition", "meaning",
   "how does", "how do", "how is", "how are",
   "tell me about", "can you explain", "can you tell me"]

/-- Finance terms of `is_general_finance_question`. -/
def financeTerms : List String :=
  ["mutual fund", "expense ratio", "exit load", "sip",
   "nav", "aum", "benchmark", "riskometer", "lock-in",
   "direct plan", "regular plan", "equity", "debt",
   "fund", "investment", "investing", "portfolio",
   "amc", "sebi", "amfi", "elss", "tax saver"]

/-- `QueryClassifier.is_general_finance_question`. -/
def isGeneralFinanceQuestion (q : String) : Bool :=
  let ql := lowerStr q
  if fundIndicators.any (fun i => containsStr i ql) then false
  else
    generalPatterns.any (fun p => startsW p ql || containsStr p ql) &&
    financeTerms.any (fun t => containsStr t ql) &&
    !(fundIndicators.any (fun i => containsStr i ql))

/-- The dictionary returned by `QueryClassifier.classify_query`. -/
structure Classification where
  is_factual : Bool
  is_opinionated : Bool
  pii_detected : Bool
  can_answer : Bool
  rejection_reason : Option String
  deriving Repr, DecidableEq

/-- `QueryClassifier._get_rejection_reason`. -/
def rejectionReasonOf (is_factual is_opinionated pii : Bool) : Option String :=
  if pii then some "pii_detected"
  else if is_opinionated then some "opinionated"
  else if !is_factual then some "not_factual"
  else none

/-- `QueryClassifier.classify_query`. -/
def classifyQuery (q : String) : Classification :=
  let ql := lowerStr q
  let pii := detectPII q
  let f := isFactual ql
  let o := isOpinionated ql
  { is_factual := f
    is_opinionated := o
    pii_detected := pii
    can_answer := f && !o && !pii
    rejection_reason := rejectionReasonOf f o pii }

/-! ### Document processor (`backend/rag/document_processor.py`) -/

/-- A JSON-ish Python value as stored in the scraped fund records. -/
inductive PyVal where
  | str (s : String)
  | intV (n : ℤ)
  | dict (l : List (String × PyVal))
  | listV (l : List PyVal)
  | noneV

mutual

/-- Python `str()` of a value (string escaping inside dict/list renderings is
not modelled; no claim inspects a rendered non-string value). -/
def pyStr : PyVal → String
  | .str s => s
  | .intV n => toString n
  | .noneV => "None"
  | .dict l => "\x7b" ++ pyStrPairs l ++ "\x7d"
  | .listV l => "[" ++ pyStrItems l ++ "]"

/-- Python `repr()` of a value as it appears inside rendered containers. -/
def pyReprV : PyVal → String
  | .str s => "\x27" ++ s ++ "\x27"
  | .intV n => toString n
  | .noneV => "None"
  | .dict l => "\x7b" ++ pyStrPairs l ++ "\x7d"
  | .listV l => "[" ++ pyStrItems l ++ "]"

/-- Comma-joined `key: value` renderings of a dict body. -/
def pyStrPairs : List (String × PyVal) → String
  | [] => ""
  | [(k, v)] => "\x27" ++ k ++ "\x27: " ++ pyReprV v
  | (k, v) :: rest => "\x27" ++ k ++ "\x27: " ++ pyReprV v ++ ", " ++ pyStrPairs rest

/-- Comma-joined renderings of a list body. -/
def pyStrItems : List PyVal → String
  | [] => ""
  | [v] => pyReprV v
  | v :: rest => pyReprV v ++ ", " ++ pyStrItems rest

end

/-- Python truthiness of a value. -/
def pyTruthy : PyVal → Bool
  | .str s => s != ""
  | .intV n => n != 0
  | .dict l => !l.isEmpty
  | .listV l => !l.isEmpty
  | .noneV => false

/-- Python `hay.endswith(needle)`. -/
def endsW (needle hay : String) : Bool :=
  leadsL needle.toList.reverse hay.toList.reverse

/-- Python `str.title()`. -/
def titleL : Bool → List Char → List Char
  | _, [] => []
  | prevAlpha, c :: cs =>
    (if c.isAlpha then (if prevAlpha then c.toLower else c.toUpper) else c) ::
      titleL c.isAlpha cs

/-- Python `str.title()` on a string. -/
def pyTitle (s : String) : String :=
  ⟨titleL false s.toList⟩

/-- One entry of a record's `sources` list: a dict with a `url` key, a dict
without one, or a bare string. -/
inductive SourceEntry where
  | dictWithUrl (url : String)
  | dictNoUrl
  | strE (s : String)
  deriving Repr, DecidableEq

/-- One scraped fund record (`fund_data` dict): `fund_name`, `data` and
`sources` as read with `.get`; an absent `data`/`sources` key is the empty
list. -/
structure FundData where
  fund_name : Option String
  data : List (String × PyVal)
  sources : List SourceEntry

/-- URL extraction loop at the top of `process_fund_to_chunks`. -/
def extractSourceUrls (sources : List SourceEntry) : List String :=
  sources.filterMap (fun s =>
    match s with
    | .dictWithUrl u => some u
    | .dictNoUrl => none
    | .strE u => some u)

/-- The on-disk `config/fund_sources.json` contents: fund name to a sources
dict.  A missing or unreadable file is the empty list. -/
def FundSourcesConfig : Type :=
  List (String × List (String × String))

/-- `DocumentProcessor._get_fallback_url`. -/
def getFallbackUrl (cfg : FundSourcesConfig) (fund_name : String) : String :=
  match List.find? (fun f => f.1 == fund_name) cfg with
  | none => "https://groww.in/p/mutual-funds"
  | some (_, srcs) =>
    match srcs.lookup "hdfc" with
    | some u => u
    | none =>
      match srcs.lookup "sebi" with
      | some u => u
      | none =>
        match srcs.lookup "amfi_pdf" with
        | some u => u
        | none =>
          match srcs.lookup "groww" with
          | some u => u
          | none => "https://groww.in/p/mutual-funds"

/-- `DocumentProcessor._get_primary_source_url`. -/
def getPrimarySourceUrl (cfg : FundSourcesConfig) (source_urls : List String)
    (fund_name : String) : String :=
  if source_urls.isEmpty then getFallbackUrl cfg fund_name
  else
    match source_urls.find? (fun u => containsStr "hdfcfund.com" u) with
    | some u => u
    | none =>
      match source_urls.find? (fun u => containsStr "sebi.gov.in" u) with
      | some u => u
      | none =>
        match source_urls.find? (fun u => containsStr "amfiindia.com" u) with
        | some u => u
        | none =>
          match source_urls.find? (fun u => containsStr "groww.in" u) with
          | some u => u
          | none =>
            match source_urls.find? (fun u => u != "" && startsW "http" u) with
            | some u => u
            | none => getFallbackUrl cfg fund_name

/-- Append `label + str(value)` when `key` is present in `data`. -/
def addIf (data : List (String × PyVal)) (key label : String)
    (parts : List String) : List String :=
  match data.lookup key with
  | some v => parts ++ [label ++ pyStr v]
  | none => parts

/-- Fold `addIf` over a key/label table. -/
def buildParts (data : List (String × PyVal)) (ks : List (String × String))
    (init : List String) : List String :=
  ks.foldl (fun parts kl => addIf data kl.1 kl.2 parts) init

/-- `DocumentProcessor._format_basic_info` (note: no length guard; the
fund-name line is always present). -/
def formatBasicInfo (fund_name : String) (data : List (String × PyVal)) : String :=
  String.intercalate "\n" (buildParts data
    [("fund_category", "Category: "),
     ("scheme_type", "Scheme Type: "),
     ("asset_class", "Asset Class: "),
     ("launch_date", "Launch Date: "),
     ("investment_objective", "Investment Objective: ")]
    ["Fund Name: " ++ fund_name])

/-- `DocumentProcessor._format_investment_details`. -/
def formatInvestmentDetails (fund_name : String) (data : List (String × PyVal)) : String :=
  let parts := buildParts data
    [("minimum_sip", "Minimum SIP Amount: "),
     ("minimum_sip_amount", "Minimum SIP Amount: "),
     ("minimum_lumpsum", "Minimum Lumpsum Investment: "),
     ("minimum_lumpsum_investment", "Minimum Lumpsum Investment: "),
     ("lock_in_period", "Lock-in Period: "),
     ("available_plans", "Available Plans: "),
     ("available_options", "Available Options: ")]
    ["Investment Details for " ++ fund_name ++ ":"]
  if parts.length > 1 then String.intercalate "\n" parts else ""

/-- One line of the list-shaped `expense_ratio` rendering. -/
def erItemLine (it : PyVal) : String :=
  match it with
  | .dict l =>
    "Expense Ratio - " ++ pyStr ((l.lookup "plan_type").getD (.str "Unknown")) ++ ": " ++
    pyStr ((l.lookup "value").getD (.str "N/A")) ++
    pyStr ((l.lookup "unit").getD (.str "")) ++
    " (as on " ++ pyStr ((l.lookup "as_on_date").getD (.str "")) ++ ")"
  | v => "Expense Ratio: " ++ pyStr v

/-- The `expense_ratio` rendering inside `_format_fees_charges`. -/
def expenseRatioLines (er : PyVal) : List String :=
  match er with
  | .dict l =>
    if (l.lookup "direct_plan").isSome && (l.lookup "regular_plan").isSome then
      ["Expense Ratio - Direct Plan: " ++ pyStr ((l.lookup "direct_plan").getD .noneV),
       "Expense Ratio - Regular Plan: " ++ pyStr ((l.lookup "regular_plan").getD .noneV)] ++
      (match l.lookup "as_on_date" with
       | some d => ["As on Date: " ++ pyStr d]
       | none => [])
    else ["Expense Ratio: " ++ pyStr (.dict l)]
  | .listV items => items.map erItemLine
  | v => ["Expense Ratio: " ++ pyStr v]

/-- `DocumentProcessor._format_fees_charges`. -/
def formatFeesCharges (fund_name : String) (data : List (String × PyVal)) : String :=
  let parts0 := ["Fees and Charges for " ++ fund_name ++ ":"]
  let parts1 :=
    match data.lookup "expense_ratio" with
    | some er => parts0 ++ expenseRatioLines er
    | none => parts0
  let parts := buildParts data
    [("exit_load", "Exit Load: "), ("entry_load", "Entry Load: ")] parts1
  if parts.length > 1 then String.intercalate "\n" parts else ""

/-- `DocumentProcessor._format_risk_performance`. -/
def formatRiskPerformance (fund_name : String) (data : List (String × PyVal)) : String :=
  let parts := buildParts data
    [("riskometer", "Riskometer Rating: "),
     ("benchmark_index", "Benchmark Index: "),
     ("benchmark", "Benchmark Index: "),
     ("nav", "NAV: "),
     ("aum", "AUM (Assets Under Management): "),
     ("fund_managers", "Fund Manager(s): ")]
    ["Risk and Performance for " ++ fund_name ++ ":"]
  if parts.length > 1 then String.intercalate "\n" parts else ""

/-- The `excluded_fields` set of `_format_additional_info`. -/
def excludedFields : List String :=
  ["fund_name", "fund_category", "scheme_type", "asset_class", "launch_date",
   "investment_objective", "minimum_sip", "minimum_lumpsum", "lock_in_period",
   "available_plans", "available_options", "expense_ratio", "exit_load",
   "entry_load", "riskometer", "benchmark_index", "nav", "aum", "fund_managers"]

/-- `DocumentProcessor._format_additional_info`. -/
def formatAdditionalInfo (fund_name : String) (data : List (String × PyVal)) : String :=
  let parts :=
    ["Additional Information for " ++ fund_name ++ ":"] ++
    (data.filterMap (fun kv =>
      if !(excludedFields.contains kv.1) && !(endsW "_alternatives" kv.1) &&
         pyTruthy kv.2 && pyStrip (pyStr kv.2) != "" then
        some (pyTitle (kv.1.replace "_" " ") ++ ": " ++ pyStr kv.2)
      else none))
  if parts.length > 1 then String.intercalate "\n" parts else ""

/-- Metadata attached to every chunk. -/
structure ChunkMeta where
  fund_name : String
  chunk_type : String
  source : String
  source_urls : List String
  primary_source_url : String
  deriving Repr, DecidableEq

/-- One retrieval chunk; `embedding` is attached later (absent key = `none`). -/
structure Chunk where
  text : String
  metadata : ChunkMeta
  embedding : Option (List ℝ) := none

/-- `DocumentProcessor.process_fund_to_chunks`. -/
def processFundToChunks (cfg : FundSourcesConfig) (fd : FundData) : List Chunk :=
  let fund_name := fd.fund_name.getD "Unknown Fund"
  let data := fd.data
  let source_urls := extractSourceUrls fd.sources
  let primary := getPrimarySourceUrl cfg source_urls fund_name
  let mk := fun (ty : String) (text : String) =>
    Chunk.mk text ⟨fund_name, ty, "structured_data", source_urls, primary⟩ none
  (let b := formatBasicInfo fund_name data
   if b != "" then [mk "basic_info" b] else []) ++
  (let i := formatInvestmentDetails fund_name data
   if i != "" then [mk "investment_details" i] else []) ++
  (let f := formatFeesCharges fund_name data
   if f != "" then [mk "fees_charges" f] else []) ++
  (let r := formatRiskPerformance fund_name data
   if r != "" then [mk "risk_performance" r] else []) ++
  (let a := formatAdditionalInfo fund_name data
   if a != "" then [mk "additional_info" a] else [])

/-! ### Embedding store (`backend/rag/embedding_store.py`)

`generate_embedding` consults a process-wide cache keyed by Python's
randomized `hash()` and is therefore modelled as an abstract parameter of the
pipeline; `cosine_similarity` is pure and embedded exactly. -/

/-- `sum(a * b for a, b in zip(vec1, vec2))`. -/
noncomputable def listDot (v w : List ℝ) : ℝ :=
  (List.zipWith (fun a b => a * b) v w).sum

/-- `sum(a * a for a in vec)`. -/
noncomputable def listSumSq (v : List ℝ) : ℝ :=
  (v.map (fun a => a * a)).sum

open Classical in
/-- `EmbeddingStore.cosine_similarity`. -/
noncomputable def cosineSimilarity (vec1 vec2 : List ℝ) : ℝ :=
  if vec1.length ≠ vec2.length then 0
  else
    let dot := listDot vec1 vec2
    let norm1 := Real.sqrt (listSumSq vec1)
    let norm2 := Real.sqrt (listSumSq vec2)
    if norm1 = 0 ∨ norm2 = 0 then 0 else dot / (norm1 * norm2)

/-! ### Response formatter (`backend/rag/response_formatter.py`) -/

/-- `re.sub` scan: at each position try the (deterministic) matcher; on a
match emit the replacement and continue after the matched text.  The guard
on the remainder length mirrors that every pattern consumes at least one
character; recursion is driven by a fuel equal to the input length (which
the guard keeps sufficient), keeping the function structurally recursive. -/
def subAllFuel (matchAt : List Char → Option (List Char)) (repl : List Char) :
    Nat → List Char → List Char
  | _, [] => []
  | 0, l => l
  | fuel + 1, c :: cs =>
    match matchAt (c :: cs) with
    | some rest =>
      if rest.length < cs.length + 1 then repl ++ subAllFuel matchAt repl fuel rest
      else c :: subAllFuel matchAt repl fuel cs
    | none => c :: subAllFuel matchAt repl fuel cs

/-- `re.sub` over a whole character list. -/
def subAll (matchAt : List Char → Option (List Char)) (repl : List Char)
    (l : List Char) : List Char :=
  subAllFuel matchAt repl l.length l

/-- Case-insensitive literal (given in lowercase); returns the rest. -/
def litCI : List Char → List Char → Option (List Char)
  | [], s => some s
  | _ :: _, [] => none
  | l :: ls, c :: cs => if c.toLower == l then litCI ls cs else none

/-- Optional single case-insensitive character (`s?`). -/
def optCharCI (ch : Char) : List Char → List Char
  | [] => []
  | c :: cs => if c.toLower == ch then cs else c :: cs

/-- `\s+` (greedy; whitespace is disjoint from every following literal). -/
def ws1 (s : List Char) : Option (List Char) :=
  let L := countWhile isPySpace s
  if L == 0 then none else some (s.drop L)

/-- `[0-9.]+` (greedy; `%` is not in the class so no backtracking). -/
def numRun1 (s : List Char) : Option (List Char) :=
  let L := countWhile (fun c => c.isDigit || c == '.') s
  if L == 0 then none else some (s.drop L)

/-- `returns?\s+(?:of|are|is)\s+[0-9.]+%`. -/
def perfPat1 (s : List Char) : Option (List Char) :=
  (litCI "return".toList s).bind fun s1 =>
  (ws1 (optCharCI 's' s1)).bind fun s3 =>
  (match litCI "of".toList s3 with
   | some r => some r
   | none =>
     match litCI "are".toList s3 with
     | some r => some r
     | none => litCI "is".toList s3).bind fun s4 =>
  (ws1 s4).bind fun s5 =>
  (numRun1 s5).bind fun s6 =>
  litCI "%".toList s6

/-- `[0-9.]+%\s+returns?`. -/
def perfPat2 (s : List Char) : Option (List Char) :=
  (numRun1 s).bind fun s1 =>
  (litCI "%".toList s1).bind fun s2 =>
  (ws1 s2).bind fun s3 =>
  (litCI "return".toList s3).map (optCharCI 's')

/-- `outperforms?`. -/
def perfPat3 (s : List Char) : Option (List Char) :=
  (litCI "outperform".toList s).map (optCharCI 's')

/-- `better\s+than`. -/
def perfPat4 (s : List Char) : Option (List Char) :=
  (litCI "better".toList s).bind fun s1 =>
  (ws1 s1).bind fun s2 =>
  litCI "than".toList s2

/-- `worse\s+than`. -/
def perfPat5 (s : List Char) : Option (List Char) :=
  (litCI "worse".toList s).bind fun s1 =>
  (ws1 s1).bind fun s2 =>
  litCI "than".toList s2

/-- `compare\s+returns?`. -/
def perfPat6 (s : List Char) : Option (List Char) :=
  (litCI "compare".toList s).bind fun s1 =>
  (ws1 s1).bind fun s2 =>
  (litCI "return".toList s2).map (optCharCI 's')

/-- `ResponseFormatter._remove_performance_claims`: the six substitutions in
source order, then `.strip()`. -/
def removePerformanceClaims (text : String) : String :=
  pyStrip ⟨subAll perfPat6
    "For performance details, please refer to the official factsheet".toList
    (subAll perfPat5 []
      (subAll perfPat4 []
        (subAll perfPat3 []
          (subAll perfPat2 []
            (subAll perfPat1 [] text.toList)))))⟩

/-- `a.*b.*c` continuation after `a`: `b` then `c` on the same line. -/
def seqAfter2 (b c : List Char) : List Char → Bool
  | [] => false
  | x :: xs =>
    (leadsL b (x :: xs) && seqAfter c ((x :: xs).drop b.length)) ||
    (x != '\n' && seqAfter2 b c xs)

/-- `re.search("a.*b.*c", q)` succeeding. -/
def seq3 (a b c : List Char) : List Char → Bool
  | [] => false
  | x :: xs =>
    (leadsL a (x :: xs) && seqAfter2 b c ((x :: xs).drop a.length)) || seq3 a b c xs

/-- Three-literal `.*` pattern search. -/
def seq3Search (a b c q : String) : Bool :=
  seq3 a.toList b.toList c.toList q.toList

/-- The literal (metacharacter-free) members of `no_info_patterns`. -/
def noInfoLiterals : List String :=
  ["does not contain", "not available", "couldn\x27t find", "could not find",
   "no information", "not in context", "not found", "unavailable",
   "does not have", "doesn\x27t have", "not present", "not provided",
   "cannot find", "unable to find", "no data", "no details",
   "lacks information", "missing information", "insufficient information",
   "not enough information"]

/-- `ResponseFormatter._indicates_no_information`. -/
def indicatesNoInformation (answer : String) : Bool :=
  let al := lowerStr answer
  noInfoLiterals.any (fun p => containsStr p al) ||
  seq3Search "apologize" "not" "contain" al ||
  seq3Search "apologize" "not" "available" al ||
  seqSearch "apologize" "couldn\x27t" al ||
  seqSearch "apologize" "no information" al

/-- Sentence terminator class `[.!?]`. -/
def isTermChar (c : Char) : Bool :=
  c == '.' || c == '!' || c == '?'

/-- Split at every terminator character (`re.split` on runs differs only by
empty pieces, which the callers filter away). -/
def splitTermL : List Char → List (List Char)
  | [] => [[]]
  | c :: cs =>
    if isTermChar c then [] :: splitTermL cs
    else
      match splitTermL cs with
      | r :: rs => (c :: r) :: rs
      | [] => [[c]]

/-- `[s.strip() for s in re.split(r'[.!?]+', answer) if s.strip()]`. -/
def sentencesL (l : List Char) : List (List Char) :=
  ((splitTermL l).map stripL).filter (fun p => !p.isEmpty)

/-- The `_add_citation`/`format_rejection_message` sentence count of a
string. -/
def sentenceCount (s : String) : Nat :=
  (sentencesL s.toList).length

/-- The variant with the extra `len(s.strip()) > 10` filter used by
`format_rejection_message`. -/
def sentencesL10 (l : List Char) : List (List Char) :=
  ((splitTermL l).map stripL).filter (fun p => !p.isEmpty && decide (p.length > 10))

/-- `s.endswith(('.', '!', '?'))`. -/
def endsTermB (s : String) : Bool :=
  match s.toList.getLast? with
  | some c => isTermChar c
  | none => false

/-- Python `'. '.join` on character lists. -/
def joinDot : List (List Char) → List Char
  | [] => []
  | [p] => p
  | p :: rest => p ++ '.' :: ' ' :: joinDot rest

/-- The body-capping step of `_add_citation`: more than `MAX_SENTENCES = 3`
sentences are cut to the first three, joined with `". "`, with terminal
punctuation ensured. -/
def cappedBody (answer : String) : String :=
  let ss := sentencesL answer.toList
  if ss.length > 3 then
    let joined : String := ⟨joinDot (ss.take 3)⟩
    if endsTermB joined then joined else joined ++ "."
  else answer

/-- `ResponseFormatter._add_citation`. -/
def addCitation (answer citation_link timestamp : String) : String :=
  let body := cappedBody answer
  let citation_text :=
    "Last updated from sources: " ++ timestamp ++ ". For more details, visit: " ++ citation_link
  if endsW "." body then body ++ " " ++ citation_text
  else body ++ ". " ++ citation_text

/-- One element of the `sources` list handed to the formatter (a Python dict
read with `.get`; the pipeline's success path omits the `metadata` key). -/
structure SrcDict where
  fund_name : Option String
  chunk_type : Option String
  similarity : Option ℝ
  metadata : Option ChunkMeta

/-- `ResponseFormatter.EDUCATIONAL_LINK`. -/
def EDUCATIONAL_LINK : String := "https://groww.in/p/mutual-funds"

/-- `ResponseFormatter.FACTSHEET_BASE_URL`. -/
def FACTSHEET_BASE_URL : String := "https://groww.in/mutual-funds"

/-- Per-source step of the first loop of `_get_citation_link`. -/
def citeFromSource (s : SrcDict) : Option String :=
  match s.metadata with
  | none => none
  | some m =>
    if m.primary_source_url != "" && startsW "http" m.primary_source_url then
      some m.primary_source_url
    else if !m.source_urls.isEmpty then
      match m.source_urls.find? (fun u => containsStr "hdfcfund.com" u) with
      | some u => some u
      | none =>
        match m.source_urls.find? (fun u => containsStr "sebi.gov.in" u) with
        | some u => some u
        | none =>
          match m.source_urls.find? (fun u => containsStr "amfiindia.com" u) with
          | some u => some u
          | none =>
            match m.source_urls.find? (fun u => containsStr "groww.in" u) with
            | some u => some u
            | none => m.source_urls.find? (fun u => startsW "http" u)
    else none

/-- `ResponseFormatter._get_url_from_config`. -/
def getUrlFromConfig (cfg : FundSourcesConfig) (fund_name : Option String) :
    Option String :=
  match fund_name with
  | none => none
  | some fn =>
    if fn == "" then none
    else
      match List.find? (fun f => f.1 == fn) cfg with
      | none => none
      | some (_, srcs) =>
        ((srcs.lookup "hdfc").orElse fun _ =>
          ((srcs.lookup "sebi").orElse fun _ =>
            ((srcs.lookup "amfi_pdf").orElse fun _ =>
              srcs.lookup "groww")))

/-- `fund_name.lower().replace(' ', '-').replace('&', 'and')`. -/
def fundSlug (fn : String) : String :=
  ((lowerStr fn).replace " " "-").replace "&" "and"

/-- Slug fallback from the first source's fund name, else the educational
link (end of `_get_citation_link`). -/
def citeTail2 (sources : List SrcDict) : String :=
  match sources with
  | s :: _ =>
    match s.fund_name with
    | some sf =>
      if sf != "" then FACTSHEET_BASE_URL ++ "/" ++ fundSlug sf
      else EDUCATIONAL_LINK
    | none => EDUCATIONAL_LINK
  | [] => EDUCATIONAL_LINK

/-- Tail of `_get_citation_link` when the per-source loop found nothing and
the config lookup fails: slug from the explicit fund name, else from the
first source's fund name, else the educational link. -/
def citeTail (sources : List SrcDict) (fund_name : Option String) : String :=
  match fund_name with
  | some fn =>
    if fn != "" then FACTSHEET_BASE_URL ++ "/" ++ fundSlug fn
    else citeTail2 sources
  | none => citeTail2 sources

/-- `ResponseFormatter._get_citation_link`. -/
def getCitationLink (cfg : FundSourcesConfig) (sources : List SrcDict)
    (fund_name : Option String) : String :=
  match sources.findSome? citeFromSource with
  | some u => u
  | none =>
    match getUrlFromConfig cfg fund_name with
    | some u => if u != "" then u else citeTail sources fund_name
    | none => citeTail sources fund_name

/-- The dictionary returned by `ResponseFormatter.format_answer`. -/
structure FormattedResponse where
  answer : String
  citation_link : String
  sources : List SrcDict
  timestamp : Option String

/-- `ResponseFormatter.format_answer` (`today` stands for
`datetime.now().strftime("%Y-%m-%d")`). -/
def formatAnswer (cfg : FundSourcesConfig) (today : String) (answer0 : String)
    (sources : List SrcDict) (fund_name : Option String)
    (is_greeting : Bool) : FormattedResponse :=
  let answer := removePerformanceClaims answer0
  if is_greeting then ⟨answer, "", sources, none⟩
  else
    let has_no_information := indicatesNoInformation answer
    let is_general_question := sources.isEmpty && !has_no_information
    if !has_no_information && !is_general_question then
      let citation_link := getCitationLink cfg sources fund_name
      ⟨addCitation answer citation_link today, citation_link, sources, some today⟩
    else ⟨answer, "", sources, none⟩

/-- The dictionary returned by `ResponseFormatter.format_rejection_message`. -/
structure RejectionMessage where
  answer : String
  citation_link : String
  rejected : Bool
  reason : String
  timestamp : Option String
  deriving Repr, DecidableEq

/-- The fixed per-reason templates (`messages` and the `.get` default). -/
def rejectionTemplate (reason : Option String) : RejectionMessage :=
  match reason with
  | some "pii_detected" =>
    ⟨"I appreciate you reaching out, but I cannot accept personal information like PAN, Aadhaar, account numbers, OTPs, emails, or phone numbers. Please do not share such information. I\x27m here to help with factual questions about mutual funds.",
     "", true, "pii_detected", none⟩
  | some "opinionated" =>
    ⟨"Thank you for your question. I can only provide factual information about mutual funds. I cannot provide investment advice, recommendations, or opinions. For educational resources on mutual fund investing, please visit: " ++
       EDUCATIONAL_LINK ++ ".",
     "", true, "opinionated", none⟩
  | some "not_factual" =>
    ⟨"Thank you for your question. I can help you with factual questions about mutual funds such as expense ratios, exit loads, minimum SIP amounts, lock-in periods, riskometer ratings, benchmarks, and how to download statements. Please feel free to ask me about any of these topics.",
     "", true, "not_factual", none⟩
  | _ =>
    ⟨"I can only answer factual questions about mutual funds.",
     "", true, "unknown", none⟩

/-- `ResponseFormatter.format_rejection_message` (its unused `query`
argument is omitted; the 3-sentence cap uses the
`len(s.strip()) > 10` sentence filter). -/
def formatRejectionMessage (reason : Option String) : RejectionMessage :=
  let result := rejectionTemplate reason
  let ss := sentencesL10 result.answer.toList
  if ss.length > 3 then
    let joined : String := ⟨joinDot (ss.take 3)⟩
    let newMain := if endsTermB joined then joined else joined ++ "."
    { result with answer := newMain }
  else result

/-! ### RAG pipeline (`backend/rag/rag_pipeline.py`)

External collaborators are parameters: `genEmbed` is
`EmbeddingStore.generate_embedding` (cache- and `hash()`-dependent),
`genAnswer`/`genGeneral` are the Gemini calls (`_generate_answer` applied to
a question and a context, `_generate_general_finance_answer`), `cfg` is the
on-disk `config/fund_sources.json`, and `today` is the formatted wall-clock
date. -/

/-- One element of the `_hybrid_search` result list. -/
structure HybridResult where
  chunk : Chunk
  similarity : ℝ
  semantic_sim : ℝ
  keyword_boost : ℝ

/-- One element of `context_parts`. -/
structure ContextPart where
  text : String
  fund_name : String
  chunk_type : String
  similarity : ℝ
  metadata : ChunkMeta

/-- The dictionary returned by `RAGPipeline.query`; a key missing from a
particular return statement is `false`/`none`. -/
structure PipelineResponse where
  answer : String
  sources : List SrcDict
  confidence : ℝ
  citation_link : String
  timestamp : Option String
  rejected : Bool
  rejection_reason : Option String

/-- The greeting keyword list inlined in `RAGPipeline.query` (identical to
`QueryClassifier.GREETING_PATTERNS`). -/
def isGreetingQ (question : String) : Bool :=
  let ql := pyStrip (lowerStr question)
  greetingPatterns.any (fun g => containsStr g ql)

/-- The greeting context string passed to `_generate_answer`. -/
def greetingContext : String :=
  "This is a greeting or general conversation. Respond politely and offer help."

/-- The fixed no-results answer of `RAGPipeline.query`. -/
def noResultsAnswer : String :=
  "I couldn\x27t find relevant information to answer your question. Please ensure your question is about factual information like expense ratios, exit loads, minimum SIP amounts, lock-in periods, riskometer ratings, benchmarks, or how to download statements. How else can I help you?"

/-- The error-message keyword list checked against the generated answer. -/
def errorKeywords : List String :=
  ["error", "encountered an error", "experiencing high traffic",
   "temporarily unavailable", "rate limit", "quota limit",
   "api is currently", "please wait a moment"]

/-- The `is_error_message` check in `RAGPipeline.query`. -/
def isErrorMessage (answer : String) : Bool :=
  errorKeywords.any (fun k => containsStr k (lowerStr answer))

/-- `RAGPipeline._extract_fund_name_from_query`. -/
def extractFundName (query : String) : Option String :=
  let ql := lowerStr query
  if containsStr "hdfc large and mid cap fund" ql then some "HDFC Large and Mid Cap Fund"
  else if containsStr "hdfc flexi cap fund" ql then some "HDFC Flexi Cap Fund"
  else if containsStr "hdfc elss" ql then some "HDFC ELSS Tax Saver Fund"
  else if containsStr "hdfc elss tax saver" ql then some "HDFC ELSS Tax Saver Fund"
  else if containsStr "hdfc elss fund" ql then some "HDFC ELSS Tax Saver Fund"
  else none

/-- Python `str.split()`: whitespace-separated words, no empties. -/
def wordsL : List Char → List (List Char)
  | [] => []
  | c :: cs =>
    if isPySpace c then wordsL cs
    else (c :: cs.takeWhile (fun x => !isPySpace x)) ::
      wordsL (cs.dropWhile (fun x => !isPySpace x))
termination_by l => l.length
decreasing_by
  · simp
  · simp only [List.length_cons]
    exact Nat.lt_succ_of_le (List.dropWhile_sublist _).length_le

/-- Python `str.split()` on a string. -/
def pyWords (s : String) : List String :=
  (wordsL s.toList).map (fun l => (⟨l⟩ : String))

/-- `RAGPipeline._fuzzy_fund_match`.  Python compares `float(k)/n >= 0.6`;
for the small word counts involved the exact rational comparison below
agrees with the float one. -/
def fuzzyFundMatch (query_fund chunk_fund : String) : Bool :=
  let qw := ((pyWords (lowerStr query_fund)).filter
    (fun w => !(["the", "fund", "mutual"].contains w))).dedup
  let cw := ((pyWords (lowerStr chunk_fund)).filter
    (fun w => !(["the", "fund", "mutual"].contains w))).dedup
  if qw.length == 0 then false
  else
    decide ((((qw.filter (fun w => cw.contains w)).length : ℚ) / (qw.length : ℚ)) ≥ 3 / 5)

/-- The fund-filtering step of `RAGPipeline.query`: exact case-insensitive
substring match first, then fuzzy match, then fall back to all chunks. -/
def searchChunksFor (chunks : List Chunk) (fund_name : Option String) : List Chunk :=
  match fund_name with
  | none => chunks
  | some f =>
    let exact := chunks.filter
      (fun c => containsStr (lowerStr f) (lowerStr c.metadata.fund_name))
    if !exact.isEmpty then exact
    else
      let fz := chunks.filter (fun c => fuzzyFundMatch f c.metadata.fund_name)
      if !fz.isEmpty then fz else chunks

/-- The `important_terms` list of `_hybrid_search`. -/
def importantTerms : List String :=
  ["expense ratio", "exit load", "minimum sip", "lock-in",
   "riskometer", "benchmark", "nav", "aum"]

/-- The intent/chunk-type boost condition of `_hybrid_search` (an `elif`
chain: only the first matching intent is consulted). -/
def intentBoostFor (ql : String) (chunk_type : String) : Bool :=
  if containsStr "expense" ql || containsStr "ratio" ql then chunk_type == "fees_charges"
  else if containsStr "exit load" ql then chunk_type == "fees_charges"
  else if containsStr "sip" ql || containsStr "minimum" ql then chunk_type == "investment_details"
  else if containsStr "lock" ql then chunk_type == "investment_details"
  else if containsStr "riskometer" ql || containsStr "benchmark" ql then chunk_type == "risk_performance"
  else false

/-- Scoring of one chunk inside `_hybrid_search`. -/
noncomputable def scoreChunk (genEmbed : String → List ℝ) (ql : String)
    (key_terms : List String) (query_embedding : List ℝ) (c : Chunk) : HybridResult :=
  let emb := c.embedding.getD (genEmbed c.text)
  let semantic_sim := cosineSimilarity query_embedding emb
  let ctl := lowerStr c.text
  let keyword_boost : ℝ :=
    0.3 * ((key_terms.filter (fun t => containsStr t ctl)).length : ℝ) +
    (if intentBoostFor ql c.metadata.chunk_type then 0.2 else 0)
  ⟨c, min 1 (semantic_sim + keyword_boost), semantic_sim, keyword_boost⟩

open Classical in
/-- The comparison used by `results.sort(key=similarity, reverse=True)`:
stable descending order (`a` may stay before `b` iff `b.sim ≤ a.sim`). -/
noncomputable def hybridLe (a b : HybridResult) : Bool :=
  decide (b.similarity ≤ a.similarity)

/-- The `results` list built by the scoring loop of `_hybrid_search`. -/
noncomputable def scoredList (genEmbed : String → List ℝ) (query : String)
    (query_embedding : List ℝ) (chunks : List Chunk) : List HybridResult :=
  let ql := lowerStr query
  let key_terms := importantTerms.filter (fun t => containsStr t ql)
  chunks.map (scoreChunk genEmbed ql key_terms query_embedding)

/-- `RAGPipeline._hybrid_search`. -/
noncomputable def hybridSearch (genEmbed : String → List ℝ) (query : String)
    (query_embedding : List ℝ) (chunks : List Chunk) (top_k : ℕ) :
    List HybridResult :=
  ((scoredList genEmbed query query_embedding chunks).mergeSort hybridLe).take top_k

open Classical in
/-- The comparison used by `context_parts.sort(key=similarity,
reverse=True)`. -/
noncomputable def ctxLe (a b : ContextPart) : Bool :=
  decide (b.similarity ≤ a.similarity)

/-- `round(x, 3)` (Python rounds half to even; the difference from `round`
only shows at exact half-thousandths, which no claim exercises). -/
noncomputable def round3 (x : ℝ) : ℝ :=
  (round (x * 1000) : ℤ) / 1000

/-- The `if not fund_name: fund_name = self._extract_fund_name_from_query`
step (`not` also catches an explicit empty string). -/
def effectiveFund (fund_name : Option String) (question : String) : Option String :=
  match fund_name with
  | some f => if f == "" then extractFundName question else some f
  | none => extractFundName question

/-- `RAGPipeline.query`. -/
noncomputable def pipelineQuery (genEmbed : String → List ℝ)
    (genAnswer : String → String → String) (genGeneral : String → String)
    (cfg : FundSourcesConfig) (today : String) (chunks : List Chunk)
    (question : String) (fund_name : Option String) (top_k : ℕ) :
    PipelineResponse :=
  if isGreetingQ question then
    let answer := genAnswer question greetingContext
    let formatted := formatAnswer cfg today answer [] fund_name true
    ⟨formatted.answer, [], 0.5, formatted.citation_link, formatted.timestamp,
     false, none⟩
  else
    let classification := classifyQuery question
    if !classification.can_answer then
      let rejection := formatRejectionMessage classification.rejection_reason
      ⟨rejection.answer, [], 0, rejection.citation_link, rejection.timestamp,
       true, some rejection.reason⟩
    else if isGeneralFinanceQuestion question then
      let answer := genGeneral question
      let formatted := formatAnswer cfg today answer [] fund_name false
      ⟨formatted.answer, [], 0.7, formatted.citation_link, formatted.timestamp,
       false, none⟩
    else
      let fund_eff := effectiveFund fund_name question
      let search_chunks := searchChunksFor chunks fund_eff
      let query_embedding := genEmbed question
      let similar_chunks := hybridSearch genEmbed question query_embedding search_chunks top_k
      if similar_chunks.isEmpty then
        ⟨noResultsAnswer, [], 0, EDUCATIONAL_LINK, none, false, none⟩
      else
        let context_parts := similar_chunks.map (fun r =>
          ContextPart.mk r.chunk.text r.chunk.metadata.fund_name
            r.chunk.metadata.chunk_type r.similarity r.chunk.metadata)
        let context_sorted := context_parts.mergeSort ctxLe
        let context_text := String.intercalate "\n\n" (context_sorted.map (fun ctx =>
          "[Source: " ++ ctx.fund_name ++ " - " ++ ctx.chunk_type ++ "]\n" ++ ctx.text))
        let answer := genAnswer question context_text
        if isErrorMessage answer then
          ⟨answer, [], 0, "", none, false, none⟩
        else
          let srcs := context_sorted.map (fun ctx =>
            SrcDict.mk (some ctx.fund_name) (some ctx.chunk_type)
              (some (round3 ctx.similarity)) none)
          let formatted := formatAnswer cfg today answer srcs fund_eff false
          let conf :=
            match context_sorted with
            | c :: _ => round3 c.similarity
            | [] => 0
          ⟨formatted.answer, formatted.sources, conf, formatted.citation_link,
           formatted.timestamp, false, none⟩

/-! ### Helper lemmas on the pipeline branches -/

/-- The greeting branch of `RAGPipeline.query` in closed form. -/
lemma pipelineQuery_greeting (genEmbed : String → List ℝ)
    (genAnswer : String → String → String) (genGeneral : String → String)
    (cfg : FundSourcesConfig) (today : String) (chunks : List Chunk)
    (q : String) (fund_name : Option String) (top_k : ℕ)
    (hg : isGreetingQ q = true) :
    pipelineQuery genEmbed genAnswer genGeneral cfg today chunks q fund_name top_k =
      ⟨removePerformanceClaims (genAnswer q greetingContext), [], 0.5, "", none,
       false, none⟩ := by
  unfold pipelineQuery
  rw [hg]
  simp [formatAnswer]

/-- The rejection branch of `RAGPipeline.query` in closed form. -/
lemma pipelineQuery_rejected (genEmbed : String → List ℝ)
    (genAnswer : String → String → String) (genGeneral : String → String)
    (cfg : FundSourcesConfig) (today : String) (chunks : List Chunk)
    (q : String) (fund_name : Option String) (top_k : ℕ)
    (hg : isGreetingQ q = false)
    (hca : (classifyQuery q).can_answer = false) :
    pipelineQuery genEmbed genAnswer genGeneral cfg today chunks q fund_name top_k =
      ⟨(formatRejectionMessage (classifyQuery q).rejection_reason).answer, [], 0,
       (formatRejectionMessage (classifyQuery q).rejection_reason).citation_link,
       (formatRejectionMessage (classifyQuery q).rejection_reason).timestamp,
       true,
       some (formatRejectionMessage (classifyQuery q).rejection_reason).reason⟩ := by
  unfold pipelineQuery
  rw [hg]
  simp [hca]

/-- The retrieval-miss branch of `RAGPipeline.query` in closed form. -/
lemma pipelineQuery_noResults (genEmbed : String → List ℝ)
    (genAnswer : String → String → String) (genGeneral : String → String)
    (cfg : FundSourcesConfig) (today : String) (chunks : List Chunk)
    (q : String) (fund_name : Option String) (top_k : ℕ)
    (hg : isGreetingQ q = false)
    (hca : (classifyQuery q).can_answer = true)
    (hgf : isGeneralFinanceQuestion q = false)
    (hret : hybridSearch genEmbed q (genEmbed q)
      (searchChunksFor chunks (effectiveFund fund_name q)) top_k = []) :
    pipelineQuery genEmbed genAnswer genGeneral cfg today chunks q fund_name top_k =
      ⟨noResultsAnswer, [], 0, EDUCATIONAL_LINK, none, false, none⟩ := by
  unfold pipelineQuery
  rw [hg]
  simp [hca, hgf, hret]

/-! ### C1 -/

/-- C1: every question containing a PAN-, Aadhaar-, long-digit-run-, email-
or Indian-mobile-style PII pattern is classified with
`rejection_reason = "pii_detected"` and `can_answer = false`, whatever else
the question contains. -/
theorem C1_pii_forces_rejection (q : String)
    (h : panMatch q = true ∨ aadhaarMatch q = true ∨ acctMatch q = true ∨
         emailMatch q = true ∨ phoneMatch q = true) :
    (classifyQuery q).rejection_reason = some "pii_detected" ∧
    (classifyQuery q).can_answer = false := by
  have hp : detectPII q = true := by
    unfold detectPII
    rcases h with h | h | h | h | h <;> simp [h]
  refine ⟨?_, ?_⟩
  · simp [classifyQuery, rejectionReasonOf, hp]
  · simp [classifyQuery, hp]

/-- Witness for C1 at the spec's own example `"My PAN is ABCDE1234F"`. -/
theorem C1_witness :
    (panMatch "My PAN is ABCDE1234F" = true ∨
     aadhaarMatch "My PAN is ABCDE1234F" = true ∨
     acctMatch "My PAN is ABCDE1234F" = true ∨
     emailMatch "My PAN is ABCDE1234F" = true ∨
     phoneMatch "My PAN is ABCDE1234F" = true) ∧
    (classifyQuery "My PAN is ABCDE1234F").rejection_reason = some "pii_detected" ∧
    (classifyQuery "My PAN is ABCDE1234F").can_answer = false :=
  ⟨Or.inl (by decide),
   C1_pii_forces_rejection "My PAN is ABCDE1234F" (Or.inl (by decide))⟩

/-! ### C2 -/

/-- C2: the question `"My PAN is ABCDE1234F. Which fund is this?"` contains
PII (classification alone would reject it with `pii_detected`), yet the
pipeline's substring greeting check accepts it (`"hi"` occurs inside
`"which"`/`"this"`) and, because the greeting branch runs before
classification, the pipeline returns a generated answer with confidence 0.5,
empty sources and empty citation link instead of a rejection. -/
theorem C2_greeting_swallows_pii :
    panMatch "My PAN is ABCDE1234F. Which fund is this?" = true ∧
    (classifyQuery "My PAN is ABCDE1234F. Which fund is this?").rejection_reason =
      some "pii_detected" ∧
    isGreetingQ "My PAN is ABCDE1234F. Which fund is this?" = true ∧
    ∀ (genEmbed : String → List ℝ) (genAnswer : String → String → String)
      (genGeneral : String → String) (cfg : FundSourcesConfig) (today : String)
      (chunks : List Chunk) (fund_name : Option String) (top_k : ℕ),
      pipelineQuery genEmbed genAnswer genGeneral cfg today chunks
          "My PAN is ABCDE1234F. Which fund is this?" fund_name top_k =
        ⟨removePerformanceClaims
           (genAnswer "My PAN is ABCDE1234F. Which fund is this?" greetingContext),
         [], 0.5, "", none, false, none⟩ := by
  refine ⟨by decide, by decide, by decide, ?_⟩
  intro genEmbed genAnswer genGeneral cfg today chunks fund_name top_k
  exact pipelineQuery_greeting genEmbed genAnswer genGeneral cfg today chunks
    _ fund_name top_k (by decide)

/-! ### Rejection-message field lemmas -/

/-- `format_rejection_message` only ever rewrites the answer text; citation,
timestamp and the rejected flag come straight from the template. -/
lemma formatRejection_keeps_fields (x : Option String) :
    (formatRejectionMessage x).citation_link = "" ∧
    (formatRejectionMessage x).timestamp = none ∧
    (formatRejectionMessage x).rejected = true := by
  have h : (rejectionTemplate x).citation_link = "" ∧
      (rejectionTemplate x).timestamp = none ∧
      (rejectionTemplate x).rejected = true := by
    unfold rejectionTemplate
    split <;> exact ⟨rfl, rfl, rfl⟩
  unfold formatRejectionMessage
  dsimp only []
  split
  · exact h
  · exact h

/-- The reason echoed by `format_rejection_message` is the template's. -/
lemma formatRejection_reason (x : Option String) :
    (formatRejectionMessage x).reason = (rejectionTemplate x).reason := by
  unfold formatRejectionMessage
  dsimp only []
  split <;> rfl

/-- Known reasons are echoed unchanged by the template table. -/
lemma rejectionTemplate_reason_of_mem (r : String)
    (h : r = "pii_detected" ∨ r = "opinionated" ∨ r = "not_factual") :
    (rejectionTemplate (some r)).reason = r := by
  rcases h with h | h | h <;> subst h <;> rfl

/-- A non-answerable classification always carries one of the three known
rejection reasons. -/
lemma canAnswer_false_reason (q : String)
    (h : (classifyQuery q).can_answer = false) :
    (classifyQuery q).rejection_reason = some "pii_detected" ∨
    (classifyQuery q).rejection_reason = some "opinionated" ∨
    (classifyQuery q).rejection_reason = some "not_factual" := by
  simp only [classifyQuery] at h ⊢
  cases hp : detectPII q with
  | true => left; simp [rejectionReasonOf, hp]
  | false =>
    cases ho : isOpinionated (lowerStr q) with
    | true => right; left; simp [rejectionReasonOf, hp, ho]
    | false =>
      cases hf : isFactual (lowerStr q) with
      | true => simp [hf, ho, hp] at h
      | false => right; right; simp [rejectionReasonOf, hp, ho, hf]

/-! ### C5 -/

/-- C5 (amended: restricted to queries the pipeline's greeting substring
check does not intercept): a non-greeting query classified with
`can_answer = false` yields `rejected = true`, confidence 0, the fixed
rejection template selected by the reason (one of `pii_detected`,
`opinionated`, `not_factual`), an empty citation link and a null
timestamp. -/
theorem C5_rejection_contract (genEmbed : String → List ℝ)
    (genAnswer : String → String → String) (genGeneral : String → String)
    (cfg : FundSourcesConfig) (today : String) (chunks : List Chunk)
    (q : String) (fund_name : Option String) (top_k : ℕ)
    (hg : isGreetingQ q = false)
    (hca : (classifyQuery q).can_answer = false) :
    (pipelineQuery genEmbed genAnswer genGeneral cfg today chunks q fund_name top_k).rejected = true ∧
    (pipelineQuery genEmbed genAnswer genGeneral cfg today chunks q fund_name top_k).confidence = 0 ∧
    (pipelineQuery genEmbed genAnswer genGeneral cfg today chunks q fund_name top_k).citation_link = "" ∧
    (pipelineQuery genEmbed genAnswer genGeneral cfg today chunks q fund_name top_k).timestamp = none ∧
    (pipelineQuery genEmbed genAnswer genGeneral cfg today chunks q fund_name top_k).answer =
      (formatRejectionMessage (classifyQuery q).rejection_reason).answer ∧
    ∃ r, (classifyQuery q).rejection_reason = some r ∧
      (pipelineQuery genEmbed genAnswer genGeneral cfg today chunks q fund_name top_k).rejection_reason = some r ∧
      (r = "pii_detected" ∨ r = "opinionated" ∨ r = "not_factual") := by
  rw [pipelineQuery_rejected genEmbed genAnswer genGeneral cfg today chunks q fund_name top_k hg hca]
  obtain ⟨h1, h2, h3⟩ := formatRejection_keeps_fields (classifyQuery q).rejection_reason
  refine ⟨rfl, rfl, h1, h2, rfl, ?_⟩
  have hmem := canAnswer_false_reason q hca
  rcases hmem with hr | hr | hr
  all_goals refine ⟨_, hr, ?_, by simp⟩
  all_goals rw [hr, formatRejection_reason]
  · rw [rejectionTemplate_reason_of_mem "pii_detected" (by simp)]
  · rw [rejectionTemplate_reason_of_mem "opinionated" (by simp)]
  · rw [rejectionTemplate_reason_of_mem "not_factual" (by simp)]

/-- Witness for C5 at `"Should I buy gold?"`. -/
theorem C5_witness :
    isGreetingQ "Should I buy gold?" = false ∧
    (classifyQuery "Should I buy gold?").can_answer = false ∧
    (pipelineQuery (fun _ => []) (fun _ _ => "") (fun _ => "") [] "2026-02-03" []
        "Should I buy gold?" none 3).rejected = true :=
  ⟨by decide, by decide,
   (C5_rejection_contract (fun _ => []) (fun _ _ => "") (fun _ => "") [] "2026-02-03" []
     "Should I buy gold?" none 3 (by decide) (by decide)).1⟩

/-- Counterexample to C5 as stated: `"hi, should i invest?"` is classified
with `can_answer = false` (opinionated), but the pipeline's greeting check
(`"hi"` substring) fires first, so the response is not a rejection at all:
`rejected = false` and confidence 0.5. -/
theorem C5_counterexample :
    (classifyQuery "hi, should i invest?").can_answer = false ∧
    (pipelineQuery (fun _ => []) (fun _ _ => "Hello!") (fun _ => "") [] "2026-02-03" []
        "hi, should i invest?" none 3).rejected = false ∧
    (pipelineQuery (fun _ => []) (fun _ _ => "Hello!") (fun _ => "") [] "2026-02-03" []
        "hi, should i invest?" none 3).confidence = 0.5 := by
  refine ⟨by decide, ?_, ?_⟩ <;>
    rw [pipelineQuery_greeting _ _ _ _ _ _ _ _ _ (by decide)]

/-! ### C6 -/

/-- C6 (amended): `"Should I invest in Fund A?"` is rejected with reason
`opinionated`, but the returned `citation_link` is empty rather than the
generic educational URL, and the educational URL does not even survive in
the answer text (the template's trailing link sentence is cut off by the
3-sentence cap). -/
theorem C6_opinionated_rejection (genEmbed : String → List ℝ)
    (genAnswer : String → String → String) (genGeneral : String → String)
    (cfg : FundSourcesConfig) (today : String) (chunks : List Chunk)
    (fund_name : Option String) (top_k : ℕ) :
    (pipelineQuery genEmbed genAnswer genGeneral cfg today chunks
        "Should I invest in Fund A?" fund_name top_k).rejected = true ∧
    (pipelineQuery genEmbed genAnswer genGeneral cfg today chunks
        "Should I invest in Fund A?" fund_name top_k).rejection_reason = some "opinionated" ∧
    (pipelineQuery genEmbed genAnswer genGeneral cfg today chunks
        "Should I invest in Fund A?" fund_name top_k).citation_link = "" ∧
    containsStr EDUCATIONAL_LINK
      (pipelineQuery genEmbed genAnswer genGeneral cfg today chunks
        "Should I invest in Fund A?" fund_name top_k).answer = false := by
  rw [pipelineQuery_rejected genEmbed genAnswer genGeneral cfg today chunks
    "Should I invest in Fund A?" fund_name top_k (by decide) (by decide)]
  refine ⟨rfl, by decide, by decide, by decide⟩

/-- Counterexample to C6 as stated: at a concrete run the rejection carries
an empty `citation_link`, which is not the generic educational URL. -/
theorem C6_counterexample :
    (pipelineQuery (fun _ => []) (fun _ _ => "") (fun _ => "") [] "2026-02-03" []
        "Should I invest in Fund A?" none 3).rejection_reason = some "opinionated" ∧
    (pipelineQuery (fun _ => []) (fun _ _ => "") (fun _ => "") [] "2026-02-03" []
        "Should I invest in Fund A?" none 3).citation_link = "" ∧
    ("" : String) ≠ EDUCATIONAL_LINK := by
  rw [pipelineQuery_rejected (fun _ => []) (fun _ _ => "") (fun _ => "") [] "2026-02-03" []
    "Should I invest in Fund A?" none 3 (by decide) (by decide)]
  exact ⟨by decide, by decide, by decide⟩

/-! ### C4 -/

/-- With an empty index every fund filter returns the empty list. -/
lemma searchChunksFor_nil (f : Option String) : searchChunksFor [] f = [] := by
  cases f <;> simp [searchChunksFor]

/-- Hybrid search over no candidates returns no results. -/
lemma hybridSearch_nil (genEmbed : String → List ℝ) (q : String)
    (v : List ℝ) (k : ℕ) : hybridSearch genEmbed q v [] k = [] := by
  simp [hybridSearch, scoredList]

/-- C4 (amended): an answerable, non-greeting, non-general product query for
which retrieval returns zero passages gets the fixed "couldn't find relevant
information" message with confidence 0, no timestamp, and — contrary to the
claim's "no citation link" — the generic educational URL as `citation_link`;
no exception is modelled because the branch is total. -/
theorem C4_retrieval_miss (genEmbed : String → List ℝ)
    (genAnswer : String → String → String) (genGeneral : String → String)
    (cfg : FundSourcesConfig) (today : String) (chunks : List Chunk)
    (q : String) (fund_name : Option String) (top_k : ℕ)
    (hg : isGreetingQ q = false)
    (hca : (classifyQuery q).can_answer = true)
    (hgf : isGeneralFinanceQuestion q = false)
    (hret : hybridSearch genEmbed q (genEmbed q)
      (searchChunksFor chunks (effectiveFund fund_name q)) top_k = []) :
    pipelineQuery genEmbed genAnswer genGeneral cfg today chunks q fund_name top_k =
      ⟨noResultsAnswer, [], 0, EDUCATIONAL_LINK, none, false, none⟩ :=
  pipelineQuery_noResults genEmbed genAnswer genGeneral cfg today chunks q
    fund_name top_k hg hca hgf hret

/-- Witness for C4 with an empty index and the query
`"What is the expense ratio of HDFC Flexi Cap Fund?"`. -/
theorem C4_witness :
    isGreetingQ "What is the expense ratio of HDFC Flexi Cap Fund?" = false ∧
    (classifyQuery "What is the expense ratio of HDFC Flexi Cap Fund?").can_answer = true ∧
    isGeneralFinanceQuestion "What is the expense ratio of HDFC Flexi Cap Fund?" = false ∧
    hybridSearch (fun _ => []) "What is the expense ratio of HDFC Flexi Cap Fund?"
      ((fun (_ : String) => ([] : List ℝ)) "What is the expense ratio of HDFC Flexi Cap Fund?")
      (searchChunksFor []
        (effectiveFund none "What is the expense ratio of HDFC Flexi Cap Fund?")) 3 = [] ∧
    pipelineQuery (fun _ => []) (fun _ _ => "") (fun _ => "") [] "2026-02-03" []
        "What is the expense ratio of HDFC Flexi Cap Fund?" none 3 =
      ⟨noResultsAnswer, [], 0, EDUCATIONAL_LINK, none, false, none⟩ := by
  have hret : hybridSearch (fun _ => []) "What is the expense ratio of HDFC Flexi Cap Fund?"
      ((fun (_ : String) => ([] : List ℝ)) "What is the expense ratio of HDFC Flexi Cap Fund?")
      (searchChunksFor []
        (effectiveFund none "What is the expense ratio of HDFC Flexi Cap Fund?")) 3 = [] := by
    rw [searchChunksFor_nil, hybridSearch_nil]
  exact ⟨by decide, by decide, by decide, hret,
    C4_retrieval_miss (fun _ => []) (fun _ _ => "") (fun _ => "") [] "2026-02-03" []
      "What is the expense ratio of HDFC Flexi Cap Fund?" none 3
      (by decide) (by decide) (by decide) hret⟩

/-- Counterexample to C4 as stated: on a retrieval miss the response's
`citation_link` is the generic educational URL, not empty. -/
theorem C4_counterexample :
    (pipelineQuery (fun _ => []) (fun _ _ => "") (fun _ => "") [] "2026-02-03" []
        "What is the expense ratio of HDFC Flexi Cap Fund?" none 3).citation_link =
      "https://groww.in/p/mutual-funds" ∧
    (pipelineQuery (fun _ => []) (fun _ _ => "") (fun _ => "") [] "2026-02-03" []
        "What is the expense ratio of HDFC Flexi Cap Fund?" none 3).citation_link ≠ "" := by
  rw [pipelineQuery_noResults (fun _ => []) (fun _ _ => "") (fun _ => "") [] "2026-02-03" []
    "What is the expense ratio of HDFC Flexi Cap Fund?" none 3
    (by decide) (by decide) (by decide) (by rw [searchChunksFor_nil, hybridSearch_nil])]
  exact ⟨rfl, by decide⟩

/-! ### C3 -/

/-- `_format_basic_info` of an empty record is the bare fund-name line. -/
lemma formatBasicInfo_nil (name : String) :
    formatBasicInfo name [] = "Fund Name: " ++ name := rfl

/-- `_format_investment_details` of an empty record is empty. -/
lemma formatInvestmentDetails_nil (name : String) :
    formatInvestmentDetails name [] = "" := rfl

/-- `_format_fees_charges` of an empty record is empty. -/
lemma formatFeesCharges_nil (name : String) :
    formatFeesCharges name [] = "" := rfl

/-- `_format_risk_performance` of an empty record is empty. -/
lemma formatRiskPerformance_nil (name : String) :
    formatRiskPerformance name [] = "" := rfl

/-- `_format_additional_info` of an empty record is empty. -/
lemma formatAdditionalInfo_nil (name : String) :
    formatAdditionalInfo name [] = "" := rfl

/-- C3 (amended): a record with an empty or absent fields mapping yields
exactly one passage — the basic-info passage holding only the fund-name
line — rather than zero; the function is total, so it never raises. -/
theorem C3_empty_data (cfg : FundSourcesConfig) (fd : FundData)
    (h : fd.data = []) :
    processFundToChunks cfg fd =
      [⟨"Fund Name: " ++ fd.fund_name.getD "Unknown Fund",
        ⟨fd.fund_name.getD "Unknown Fund", "basic_info", "structured_data",
         extractSourceUrls fd.sources,
         getPrimarySourceUrl cfg (extractSourceUrls fd.sources)
           (fd.fund_name.getD "Unknown Fund")⟩,
        none⟩] := by
  obtain ⟨fn, data, srcs⟩ := fd
  simp only at h
  subst h
  rfl

/-- Witness for C3 at a concrete empty-fields record. -/
theorem C3_witness :
    (FundData.mk (some "Fund X") [] []).data = [] ∧
    processFundToChunks [] (FundData.mk (some "Fund X") [] []) =
      [⟨"Fund Name: Fund X",
        ⟨"Fund X", "basic_info", "structured_data", [],
         "https://groww.in/p/mutual-funds"⟩, none⟩] :=
  ⟨rfl, (C3_empty_data [] (FundData.mk (some "Fund X") [] []) rfl).trans rfl⟩

/-- Counterexample to C3 as stated: the empty-fields record yields one
passage, not zero. -/
theorem C3_counterexample :
    (processFundToChunks [] (FundData.mk (some "Fund X") [] [])).length = 1 ∧
    (processFundToChunks [] (FundData.mk (some "Fund X") [] [])).length ≠ 0 := by
  have h : (processFundToChunks [] (FundData.mk (some "Fund X") [] [])).length = 1 := rfl
  exact ⟨h, by omega⟩

/-! ### C8 -/

/-- Every chunk produced for a record carries the record's extracted URL
list and the shared primary URL. -/
lemma chunk_primary_eq (cfg : FundSourcesConfig) (fd : FundData) (c : Chunk)
    (hc : c ∈ processFundToChunks cfg fd) :
    c.metadata.source_urls = extractSourceUrls fd.sources ∧
    c.metadata.primary_source_url =
      getPrimarySourceUrl cfg (extractSourceUrls fd.sources)
        (fd.fund_name.getD "Unknown Fund") := by
  unfold processFundToChunks at hc
  simp only [List.mem_append] at hc
  rcases hc with ((((hc | hc) | hc) | hc) | hc) <;>
  · split at hc
    · simp only [List.mem_singleton] at hc
      subst hc
      exact ⟨rfl, rfl⟩
    · simp at hc

/-- If some source URL contains a prioritized domain or starts with `http`,
the chosen primary URL is a member of the URL list. -/
lemma getPrimary_mem (cfg : FundSourcesConfig) (urls : List String) (name : String)
    (h : ∃ u ∈ urls,
      containsStr "hdfcfund.com" u = true ∨ containsStr "sebi.gov.in" u = true ∨
      containsStr "amfiindia.com" u = true ∨ containsStr "groww.in" u = true ∨
      startsW "http" u = true) :
    getPrimarySourceUrl cfg urls name ∈ urls := by
  have hne : urls.isEmpty = false := by
    obtain ⟨u, hu, -⟩ := h
    cases urls with
    | nil => simp at hu
    | cons a l => rfl
  unfold getPrimarySourceUrl
  rw [hne]
  simp only [Bool.false_eq_true, if_false]
  rcases h1 : urls.find? (fun u => containsStr "hdfcfund.com" u) with _ | u
  case some => exact List.mem_of_find?_eq_some h1
  rcases h2 : urls.find? (fun u => containsStr "sebi.gov.in" u) with _ | u
  case some => exact List.mem_of_find?_eq_some h2
  rcases h3 : urls.find? (fun u => containsStr "amfiindia.com" u) with _ | u
  case some => exact List.mem_of_find?_eq_some h3
  rcases h4 : urls.find? (fun u => containsStr "groww.in" u) with _ | u
  case some => exact List.mem_of_find?_eq_some h4
  rcases h5 : urls.find? (fun u => u != "" && startsW "http" u) with _ | u
  case some => exact List.mem_of_find?_eq_some h5
  exfalso
  obtain ⟨u, hu, hc⟩ := h
  rcases hc with hc | hc | hc | hc | hc
  · exact absurd hc (by simpa using List.find?_eq_none.mp h1 u hu)
  · exact absurd hc (by simpa using List.find?_eq_none.mp h2 u hu)
  · exact absurd hc (by simpa using List.find?_eq_none.mp h3 u hu)
  · exact absurd hc (by simpa using List.find?_eq_none.mp h4 u hu)
  · have hne2 : (u != "") = true := by
      rcases hu2 : u with ⟨l⟩
      cases l with
      | nil =>
        rw [hu2] at hc
        exact absurd hc (by decide)
      | cons a l =>
        subst hu2
        rw [bne_iff_ne]
        intro heq
        have := congrArg String.data heq
        simp at this
    have := List.find?_eq_none.mp h5 u hu
    simp [hne2, hc] at this

/-- C8 (amended: restricted to records where some source URL contains a
prioritized domain or starts with `http`; otherwise the code falls back to a
config/default URL outside the record): every passage produced by the
chunker then has a `primary_source_url` that is one of the record's source
URLs. -/
theorem C8_primary_url_sound (cfg : FundSourcesConfig) (fd : FundData) (c : Chunk)
    (hc : c ∈ processFundToChunks cfg fd)
    (h : ∃ u ∈ extractSourceUrls fd.sources,
      containsStr "hdfcfund.com" u = true ∨ containsStr "sebi.gov.in" u = true ∨
      containsStr "amfiindia.com" u = true ∨ containsStr "groww.in" u = true ∨
      startsW "http" u = true) :
    c.metadata.primary_source_url ∈ extractSourceUrls fd.sources := by
  obtain ⟨-, h2⟩ := chunk_primary_eq cfg fd c hc
  rw [h2]
  exact getPrimary_mem _ _ _ h

/-- Witness for C8 at a record with one plain-`http` source URL. -/
theorem C8_witness :
    (∃ u ∈ extractSourceUrls [SourceEntry.dictWithUrl "https://example.com/x"],
      containsStr "hdfcfund.com" u = true ∨ containsStr "sebi.gov.in" u = true ∨
      containsStr "amfiindia.com" u = true ∨ containsStr "groww.in" u = true ∨
      startsW "http" u = true) ∧
    (⟨"Fund Name: F",
      ⟨"F", "basic_info", "structured_data", ["https://example.com/x"],
       "https://example.com/x"⟩, none⟩ : Chunk) ∈
      processFundToChunks []
        (FundData.mk (some "F") [] [SourceEntry.dictWithUrl "https://example.com/x"]) ∧
    (⟨"Fund Name: F",
      ⟨"F", "basic_info", "structured_data", ["https://example.com/x"],
       "https://example.com/x"⟩, none⟩ : Chunk).metadata.primary_source_url ∈
      extractSourceUrls [SourceEntry.dictWithUrl "https://example.com/x"] := by
  have hex : ∃ u ∈ extractSourceUrls [SourceEntry.dictWithUrl "https://example.com/x"],
      containsStr "hdfcfund.com" u = true ∨ containsStr "sebi.gov.in" u = true ∨
      containsStr "amfiindia.com" u = true ∨ containsStr "groww.in" u = true ∨
      startsW "http" u = true :=
    ⟨"https://example.com/x", by decide, by decide⟩
  have hlist : processFundToChunks []
      (FundData.mk (some "F") [] [SourceEntry.dictWithUrl "https://example.com/x"]) =
      [⟨"Fund Name: F",
        ⟨"F", "basic_info", "structured_data", ["https://example.com/x"],
         "https://example.com/x"⟩, none⟩] := rfl
  have hmem : (⟨"Fund Name: F",
      ⟨"F", "basic_info", "structured_data", ["https://example.com/x"],
       "https://example.com/x"⟩, none⟩ : Chunk) ∈
      processFundToChunks []
        (FundData.mk (some "F") [] [SourceEntry.dictWithUrl "https://example.com/x"]) := by
    rw [hlist]
    exact List.mem_singleton_self _
  exact ⟨hex, hmem, C8_primary_url_sound _ _ _ hmem hex⟩

/-- Counterexample to C8 as stated: a record whose only source URL is an
`ftp` URL (no prioritized domain, not `http`-prefixed) gets the config
fallback URL as `primary_source_url`, which is not among its source URLs. -/
theorem C8_counterexample :
    (processFundToChunks []
        (FundData.mk (some "F") [] [SourceEntry.strE "ftp://example.com/doc.pdf"])).map
      (fun c => c.metadata.primary_source_url) = ["https://groww.in/p/mutual-funds"] ∧
    extractSourceUrls [SourceEntry.strE "ftp://example.com/doc.pdf"] =
      ["ftp://example.com/doc.pdf"] ∧
    ("https://groww.in/p/mutual-funds" : String) ∉ (["ftp://example.com/doc.pdf"] : List String) := by
  exact ⟨rfl, rfl, by decide⟩

/-! ### C9 -/

/-- A sum of squares is non-negative. -/
lemma listSumSq_nonneg (v : List ℝ) : 0 ≤ listSumSq v := by
  unfold listSumSq
  apply List.sum_nonneg
  intro x hx
  obtain ⟨a, -, rfl⟩ := List.mem_map.mp hx
  exact mul_self_nonneg a

/-- The dot product of entrywise non-negative vectors is non-negative. -/
lemma listDot_nonneg (v : List ℝ) :
    ∀ (w : List ℝ), (∀ x ∈ v, 0 ≤ x) → (∀ x ∈ w, 0 ≤ x) → 0 ≤ listDot v w := by
  induction v with
  | nil => intro w _ _; simp [listDot]
  | cons a as ih =>
    intro w hv hw
    cases w with
    | nil => simp [listDot]
    | cons b bs =>
      have h1 : 0 ≤ a * b := mul_nonneg (hv a (by simp)) (hw b (by simp))
      have h2 : 0 ≤ listDot as bs :=
        ih bs (fun x hx => hv x (by simp [hx])) (fun x hx => hw x (by simp [hx]))
      have e1 : listDot (a :: as) (b :: bs) = a * b + listDot as bs := by
        simp [listDot]
      rw [e1]
      linarith

/-- Scalar step of the Cauchy-Schwarz induction. -/
lemma cs_step (a b s t D : ℝ) (_hs : 0 ≤ s) (_ht : 0 ≤ t) (hD : D ≤ s * t) :
    a * b + D ≤ Real.sqrt (a * a + s * s) * Real.sqrt (b * b + t * t) := by
  have h1 : (a * b + s * t) ^ 2 ≤ (a * a + s * s) * (b * b + t * t) := by
    nlinarith [sq_nonneg (a * t - b * s)]
  calc a * b + D ≤ a * b + s * t := by linarith
    _ ≤ |a * b + s * t| := le_abs_self _
    _ = Real.sqrt ((a * b + s * t) ^ 2) := (Real.sqrt_sq_eq_abs _).symm
    _ ≤ Real.sqrt ((a * a + s * s) * (b * b + t * t)) := Real.sqrt_le_sqrt h1
    _ = Real.sqrt (a * a + s * s) * Real.sqrt (b * b + t * t) :=
        Real.sqrt_mul (add_nonneg (mul_self_nonneg a) (mul_self_nonneg s)) _

/-- Cauchy-Schwarz for list dot products (any lengths; `zipWith`
truncates, which only shrinks the left side). -/
lemma listDot_le_norms (v : List ℝ) :
    ∀ (w : List ℝ), listDot v w ≤ Real.sqrt (listSumSq v) * Real.sqrt (listSumSq w) := by
  induction v with
  | nil =>
    intro w
    have : listDot [] w = 0 := by simp [listDot]
    rw [this]
    exact mul_nonneg (Real.sqrt_nonneg _) (Real.sqrt_nonneg _)
  | cons a as ih =>
    intro w
    cases w with
    | nil =>
      have : listDot (a :: as) [] = 0 := by simp [listDot]
      rw [this]
      exact mul_nonneg (Real.sqrt_nonneg _) (Real.sqrt_nonneg _)
    | cons b bs =>
      have hs := listSumSq_nonneg as
      have ht := listSumSq_nonneg bs
      have step := cs_step a b (Real.sqrt (listSumSq as)) (Real.sqrt (listSumSq bs))
        (listDot as bs) (Real.sqrt_nonneg _) (Real.sqrt_nonneg _) (ih bs)
      rw [Real.mul_self_sqrt hs, Real.mul_self_sqrt ht] at step
      have e1 : listDot (a :: as) (b :: bs) = a * b + listDot as bs := by simp [listDot]
      have e2 : listSumSq (a :: as) = a * a + listSumSq as := by simp [listSumSq]
      have e3 : listSumSq (b :: bs) = b * b + listSumSq bs := by simp [listSumSq]
      rw [e1, e2, e3]
      exact step

/-- Cosine similarity of entrywise non-negative vectors is non-negative. -/
lemma cosine_nonneg (v w : List ℝ) (hv : ∀ x ∈ v, 0 ≤ x) (hw : ∀ x ∈ w, 0 ≤ x) :
    0 ≤ cosineSimilarity v w := by
  unfold cosineSimilarity
  split
  · exact le_refl 0
  · dsimp only []
    split
    · exact le_refl 0
    · exact div_nonneg (listDot_nonneg v w hv hw)
        (mul_nonneg (Real.sqrt_nonneg _) (Real.sqrt_nonneg _))

/-- Cosine similarity never exceeds 1. -/
lemma cosine_le_one (v w : List ℝ) : cosineSimilarity v w ≤ 1 := by
  unfold cosineSimilarity
  split
  · exact zero_le_one
  · dsimp only []
    split
    · exact zero_le_one
    · rename_i hnorm
      push_neg at hnorm
      have h1 : 0 < Real.sqrt (listSumSq v) :=
        lt_of_le_of_ne (Real.sqrt_nonneg _) (Ne.symm hnorm.1)
      have h2 : 0 < Real.sqrt (listSumSq w) :=
        lt_of_le_of_ne (Real.sqrt_nonneg _) (Ne.symm hnorm.2)
      rw [div_le_one (mul_pos h1 h2)]
      exact listDot_le_norms v w

/-- C9 (amended: the `[0,1]` range additionally needs entrywise
non-negative vectors, which the bag-of-words embedder always produces; for
opposing-sign vectors the code can return a negative value):
`cosine_similarity` returns 0 on length mismatch and on an all-zero norm,
and its value lies in `[0,1]`; the function is total, so it never raises. -/
theorem C9_cosine_similarity_spec (v1 v2 : List ℝ)
    (h1 : ∀ x ∈ v1, 0 ≤ x) (h2 : ∀ x ∈ v2, 0 ≤ x) :
    (v1.length ≠ v2.length → cosineSimilarity v1 v2 = 0) ∧
    ((Real.sqrt (listSumSq v1) = 0 ∨ Real.sqrt (listSumSq v2) = 0) →
      cosineSimilarity v1 v2 = 0) ∧
    0 ≤ cosineSimilarity v1 v2 ∧ cosineSimilarity v1 v2 ≤ 1 := by
  refine ⟨?_, ?_, cosine_nonneg v1 v2 h1 h2, cosine_le_one v1 v2⟩
  · intro hl
    unfold cosineSimilarity
    rw [if_pos hl]
  · intro hn
    unfold cosineSimilarity
    split
    · rfl
    · dsimp only []
      rw [if_pos hn]

/-- Witness for C9 on concrete non-negative vectors of unequal length. -/
theorem C9_witness :
    (∀ x ∈ [(1 : ℝ)], 0 ≤ x) ∧ (∀ x ∈ [(1 : ℝ), 2], 0 ≤ x) ∧
    0 ≤ cosineSimilarity [(1 : ℝ)] [(1 : ℝ), 2] ∧
    cosineSimilarity [(1 : ℝ)] [(1 : ℝ), 2] ≤ 1 ∧
    cosineSimilarity [(1 : ℝ)] [(1 : ℝ), 2] = 0 := by
  have hA : ∀ x ∈ [(1 : ℝ)], 0 ≤ x := by norm_num
  have hB : ∀ x ∈ [(1 : ℝ), 2], 0 ≤ x := by
    intro x hx
    rcases List.mem_cons.mp hx with rfl | hx
    · norm_num
    · simp at hx; rw [hx]; norm_num
  have h := C9_cosine_similarity_spec [(1 : ℝ)] [(1 : ℝ), 2] hA hB
  exact ⟨hA, hB, h.2.2.1, h.2.2.2, h.1 (by simp)⟩

/-- The cosine of the concrete opposing pair `[1]`, `[-1]` is `-1`. -/
lemma cosine_neg_example : cosineSimilarity [(1 : ℝ)] [(-1 : ℝ)] = -1 := by
  unfold cosineSimilarity
  rw [if_neg (by simp)]
  dsimp only []
  have e1 : listSumSq [(1 : ℝ)] = 1 := by simp [listSumSq]
  have e2 : listSumSq [(-1 : ℝ)] = 1 := by simp [listSumSq]
  have e3 : listDot [(1 : ℝ)] [(-1 : ℝ)] = -1 := by simp [listDot]
  rw [e1, e2, e3, Real.sqrt_one]
  rw [if_neg (by norm_num)]
  norm_num

/-- Counterexample to C9 as stated: for every pair of vectors the result is
claimed to be in `[0,1]`, but `cosine_similarity([1], [-1])` is `-1`. -/
theorem C9_counterexample :
    cosineSimilarity [(1 : ℝ)] [(-1 : ℝ)] = -1 ∧
    cosineSimilarity [(1 : ℝ)] [(-1 : ℝ)] < 0 :=
  ⟨cosine_neg_example, by rw [cosine_neg_example]; norm_num⟩

/-! ### C7 -/

/-- The descending comparison is transitive. -/
lemma hybridLe_trans : ∀ (a b c : HybridResult),
    hybridLe a b → hybridLe b c → hybridLe a c := by
  intro a b c hab hbc
  simp only [hybridLe, decide_eq_true_eq] at *
  exact le_trans hbc hab

/-- The descending comparison is total. -/
lemma hybridLe_total : ∀ (a b : HybridResult), hybridLe a b || hybridLe b a := by
  intro a b
  simp only [hybridLe, Bool.or_eq_true, decide_eq_true_eq]
  exact le_total b.similarity a.similarity

/-- C7 (amended: the `[0,1]` bound additionally needs entrywise
non-negative query and passage vectors, which the embedder always produces;
a negative passage vector can drive a combined score below 0): hybrid
search returns at most `top_k` results; every result's combined score is
`min(1, semantic + boost)` with `boost = 0.3` per matched important term
plus `0.2` on an intent/category match; all returned scores lie in `[0,1]`;
and the output is the `top_k`-prefix of a stable descending sort of the
scored candidates (ties keep original passage order). -/
theorem C7_hybrid_search_contract (genEmbed : String → List ℝ) (query : String)
    (qv : List ℝ) (chunks : List Chunk) (top_k : ℕ)
    (hq : ∀ x ∈ qv, 0 ≤ x)
    (hc : ∀ c ∈ chunks, ∀ e, c.embedding = some e → ∀ x ∈ e, 0 ≤ x)
    (hg : ∀ s : String, ∀ x ∈ genEmbed s, 0 ≤ x) :
    (hybridSearch genEmbed query qv chunks top_k).length ≤ top_k ∧
    (∀ r ∈ hybridSearch genEmbed query qv chunks top_k,
      r.similarity = min 1 (r.semantic_sim + r.keyword_boost) ∧
      r.semantic_sim = cosineSimilarity qv (r.chunk.embedding.getD (genEmbed r.chunk.text)) ∧
      r.keyword_boost =
        0.3 * (((importantTerms.filter (fun t => containsStr t (lowerStr query))).filter
            (fun t => containsStr t (lowerStr r.chunk.text))).length : ℝ) +
          (if intentBoostFor (lowerStr query) r.chunk.metadata.chunk_type then 0.2 else 0) ∧
      0 ≤ r.similarity ∧ r.similarity ≤ 1) ∧
    List.Pairwise (fun a b => b.similarity ≤ a.similarity)
      (hybridSearch genEmbed query qv chunks top_k) ∧
    hybridSearch genEmbed query qv chunks top_k =
      ((scoredList genEmbed query qv chunks).mergeSort hybridLe).take top_k ∧
    (∀ a b : HybridResult,
      List.Sublist [a, b] (scoredList genEmbed query qv chunks) →
      a.similarity = b.similarity →
      List.Sublist [a, b] ((scoredList genEmbed query qv chunks).mergeSort hybridLe)) := by
  refine ⟨?_, ?_, ?_, rfl, ?_⟩
  · exact (List.length_take _ _).trans_le (min_le_left _ _)
  · intro r hr
    have hr2 : r ∈ (scoredList genEmbed query qv chunks).mergeSort hybridLe :=
      (List.take_sublist _ _).mem hr
    have hr3 : r ∈ scoredList genEmbed query qv chunks := List.mem_mergeSort.mp hr2
    obtain ⟨c, hcm, rfl⟩ := List.mem_map.mp hr3
    refine ⟨rfl, rfl, rfl, ?_, ?_⟩
    · have hsem : 0 ≤ cosineSimilarity qv (c.embedding.getD (genEmbed c.text)) := by
        apply cosine_nonneg qv _ hq
        cases hce : c.embedding with
        | none => simpa using hg c.text
        | some e => simpa using hc c hcm e hce
      have hboost : (0 : ℝ) ≤
          0.3 * (((importantTerms.filter (fun t => containsStr t (lowerStr query))).filter
            (fun t => containsStr t (lowerStr c.text))).length : ℝ) +
          (if intentBoostFor (lowerStr query) c.metadata.chunk_type then 0.2 else 0) := by
        have h1 : (0 : ℝ) ≤ 0.3 *
            (((importantTerms.filter (fun t => containsStr t (lowerStr query))).filter
              (fun t => containsStr t (lowerStr c.text))).length : ℝ) := by positivity
        have h2 : (0 : ℝ) ≤
            (if intentBoostFor (lowerStr query) c.metadata.chunk_type then (0.2 : ℝ) else 0) := by
          split <;> norm_num
        linarith
      exact le_min zero_le_one (add_nonneg hsem hboost)
    · exact min_le_left _ _
  · have hp := List.sorted_mergeSort hybridLe_trans hybridLe_total
      (scoredList genEmbed query qv chunks)
    have hp2 : List.Pairwise (fun a b => b.similarity ≤ a.similarity)
        ((scoredList genEmbed query qv chunks).mergeSort hybridLe) := by
      refine hp.imp ?_
      intro a b h
      simpa [hybridLe] using h
    exact hp2.sublist (List.take_sublist _ _)
  · intro a b hab heq
    apply List.sublist_mergeSort hybridLe_trans hybridLe_total ?_ hab
    constructor
    · intro b2 hb2
      simp only [List.mem_singleton] at hb2
      subst hb2
      simp [hybridLe, heq]
    · simp

/-- A cached-embedding chunk used by the C7 witness. -/
def witnessChunk : Chunk :=
  ⟨"text", ⟨"F", "basic_info", "structured_data", [], ""⟩, some []⟩

/-- Witness for C7 at a concrete one-chunk index with non-negative (empty)
vectors. -/
theorem C7_witness :
    (∀ x ∈ ([] : List ℝ), 0 ≤ x) ∧
    (∀ c ∈ [witnessChunk], ∀ e, c.embedding = some e → ∀ x ∈ e, 0 ≤ x) ∧
    (∀ s : String, ∀ x ∈ (fun (_ : String) => ([] : List ℝ)) s, 0 ≤ x) ∧
    (hybridSearch (fun _ => []) "q" [] [witnessChunk] 3).length ≤ 3 ∧
    (∀ r ∈ hybridSearch (fun _ => []) "q" [] [witnessChunk] 3,
      0 ≤ r.similarity ∧ r.similarity ≤ 1) := by
  have hq : ∀ x ∈ ([] : List ℝ), 0 ≤ x := by simp
  have hc : ∀ c ∈ [witnessChunk], ∀ e, c.embedding = some e → ∀ x ∈ e, 0 ≤ x := by
    intro c hcm e he x hx
    simp only [List.mem_singleton] at hcm
    subst hcm
    have he2 : ([] : List ℝ) = e := by simpa [witnessChunk] using he
    rw [← he2] at hx
    simp at hx
  have hg : ∀ s : String, ∀ x ∈ (fun (_ : String) => ([] : List ℝ)) s, 0 ≤ x := by
    intro s x hx
    simp at hx
  have h := C7_hybrid_search_contract (fun _ => []) "q" [] [witnessChunk] 3 hq hc hg
  exact ⟨hq, hc, hg, h.1, fun r hr => ⟨(h.2.1 r hr).2.2.2.1, (h.2.1 r hr).2.2.2.2⟩⟩

/-- A chunk with a cached negative embedding used by the C7
counterexample. -/
noncomputable def cexChunk : Chunk :=
  ⟨"t", ⟨"F", "basic_info", "structured_data", [], ""⟩, some [(-1 : ℝ)]⟩

/-- Counterexample to C7 as stated: with query vector `[1]` and a passage
whose cached vector is `[-1]`, the single returned combined score is `-1`,
outside `[0,1]`. -/
theorem C7_counterexample :
    (hybridSearch (fun _ => []) "x" [(1 : ℝ)] [cexChunk] 3).map
      HybridResult.similarity = [-1] ∧ ¬ ((0 : ℝ) ≤ -1) := by
  constructor
  · have h1 : scoredList (fun _ => []) "x" [(1 : ℝ)] [cexChunk] =
        [scoreChunk (fun _ => []) (lowerStr "x")
          (importantTerms.filter (fun t => containsStr t (lowerStr "x")))
          [(1 : ℝ)] cexChunk] := rfl
    have hsim : (scoreChunk (fun _ => []) (lowerStr "x")
        (importantTerms.filter (fun t => containsStr t (lowerStr "x")))
        [(1 : ℝ)] cexChunk).similarity = -1 := by
      have hkt : importantTerms.filter (fun t => containsStr t (lowerStr "x")) = [] := by
        decide
      have hip : intentBoostFor (lowerStr "x") cexChunk.metadata.chunk_type = false := by
        decide
      show min 1 (cosineSimilarity [(1 : ℝ)] (cexChunk.embedding.getD _) +
        (0.3 * ((List.filter _ (importantTerms.filter
            (fun t => containsStr t (lowerStr "x")))).length : ℝ) +
          (if intentBoostFor (lowerStr "x") cexChunk.metadata.chunk_type then 0.2 else 0))) = -1
      rw [hkt, hip]
      have hemb : cexChunk.embedding.getD ((fun (_ : String) => ([] : List ℝ)) cexChunk.text) =
          [(-1 : ℝ)] := rfl
      rw [show cexChunk.embedding = some [(-1 : ℝ)] from rfl]
      simp only [Option.getD_some, List.filter_nil, List.length_nil, Nat.cast_zero,
        mul_zero, Bool.false_eq_true, if_false, add_zero, zero_add]
      rw [cosine_neg_example]
      exact min_eq_right (by norm_num)
    rw [hybridSearch, h1, List.mergeSort_singleton]
    simp [hsim]
  · norm_num

/-! ### C10: sentence-splitting lemmas -/

/-- The splitter always returns at least one piece. -/
lemma splitTermL_shape (l : List Char) : ∃ r rs, splitTermL l = r :: rs := by
  induction l with
  | nil => exact ⟨[], [], rfl⟩
  | cons c cs ih =>
    by_cases hc : isTermChar c
    · exact ⟨[], splitTermL cs, by simp [splitTermL, hc]⟩
    · obtain ⟨r, rs, hrs⟩ := ih
      exact ⟨c :: r, rs, by simp [splitTermL, hc, hrs]⟩

/-- No piece returned by the splitter contains a terminator character. -/
lemma splitTermL_noTerm (l : List Char) :
    ∀ p ∈ splitTermL l, ∀ c ∈ p, isTermChar c = false := by
  induction l with
  | nil =>
    intro p hp c hc
    simp [splitTermL] at hp
    subst hp
    simp at hc
  | cons a as ih =>
    intro p hp c hc
    by_cases ha : isTermChar a
    · rw [show splitTermL (a :: as) = [] :: splitTermL as from by simp [splitTermL, ha]] at hp
      rcases List.mem_cons.mp hp with rfl | hp
      · simp at hc
      · exact ih p hp c hc
    · obtain ⟨r, rs, hrs⟩ := splitTermL_shape as
      rw [show splitTermL (a :: as) = (a :: r) :: rs from by simp [splitTermL, ha, hrs]] at hp
      rcases List.mem_cons.mp hp with rfl | hp
      · rcases List.mem_cons.mp hc with rfl | hc
        · simpa using ha
        · exact ih r (by rw [hrs]; exact List.mem_cons_self _ _) c hc
      · exact ih p (by rw [hrs]; exact List.mem_cons_of_mem _ hp) c hc

/-- Splitting a terminator-free block followed by a terminator peels off the
block. -/
lemma splitTermL_append (p : List Char) (d : Char) (rest : List Char)
    (hp : ∀ c ∈ p, isTermChar c = false) (hd : isTermChar d = true) :
    splitTermL (p ++ d :: rest) = p :: splitTermL rest := by
  induction p with
  | nil => simp [splitTermL, hd]
  | cons c cs ih =>
    have hc : isTermChar c = false := hp c (List.mem_cons_self _ _)
    have ih2 := ih (fun x hx => hp x (List.mem_cons_of_mem _ hx))
    show splitTermL (c :: (cs ++ d :: rest)) = (c :: cs) :: splitTermL rest
    simp [splitTermL, hc, ih2]

/-- `dropWs` output is empty or starts with a non-space character. -/
lemma dropWs_head (l : List Char) :
    dropWs l = [] ∨ ∃ c cs, dropWs l = c :: cs ∧ isPySpace c = false := by
  induction l with
  | nil => exact Or.inl rfl
  | cons a as ih =>
    by_cases ha : isPySpace a
    · rw [show dropWs (a :: as) = dropWs as from by simp [dropWs, ha]]
      exact ih
    · exact Or.inr ⟨a, as, by simp [dropWs, ha], by simpa using ha⟩

/-- `dropWs` fixes a list with a non-space head. -/
lemma dropWs_fix (c : Char) (cs : List Char) (h : isPySpace c = false) :
    dropWs (c :: cs) = c :: cs := by
  simp [dropWs, h]

/-- `dropWs` is idempotent. -/
lemma dropWs_idem (l : List Char) : dropWs (dropWs l) = dropWs l := by
  rcases dropWs_head l with h | ⟨c, cs, h, hc⟩
  · rw [h]; rfl
  · rw [h]; exact dropWs_fix c cs hc

/-- Members of `dropWs l` are members of `l`. -/
lemma mem_dropWs (l : List Char) (x : Char) (h : x ∈ dropWs l) : x ∈ l := by
  induction l with
  | nil => simp [dropWs] at h
  | cons a as ih =>
    by_cases ha : isPySpace a
    · rw [show dropWs (a :: as) = dropWs as from by simp [dropWs, ha]] at h
      exact List.mem_cons_of_mem _ (ih h)
    · rwa [dropWs_fix a as (by simpa using ha)] at h

/-- Members of `stripL l` are members of `l`. -/
lemma mem_stripL (l : List Char) (x : Char) (h : x ∈ stripL l) : x ∈ l := by
  unfold stripL at h
  have h1 := mem_dropWs _ _ h
  rw [List.mem_reverse] at h1
  have h2 := mem_dropWs _ _ h1
  rwa [List.mem_reverse] at h2

/-- The head of a stripped list is not a space. -/
lemma stripL_head (l : List Char) :
    stripL l = [] ∨ ∃ c cs, stripL l = c :: cs ∧ isPySpace c = false := by
  unfold stripL
  exact dropWs_head _

/-- `dropWs` preserves the last element when its result is nonempty. -/
lemma getLast?_dropWs (l : List Char) :
    dropWs l = [] ∨ (dropWs l).getLast? = l.getLast? := by
  induction l with
  | nil => exact Or.inl rfl
  | cons a as ih =>
    by_cases ha : isPySpace a
    · by_cases hnil : dropWs as = []
      · left
        rw [show dropWs (a :: as) = dropWs as from by simp [dropWs, ha]]
        exact hnil
      · right
        rw [show dropWs (a :: as) = dropWs as from by simp [dropWs, ha]]
        rcases ih with h | h
        · exact absurd h hnil
        · rw [h]
          have hasne : as ≠ [] := by
            intro hh
            rw [hh] at hnil
            simp [dropWs] at hnil
          cases as with
          | nil => exact absurd rfl hasne
          | cons b bs => rw [List.getLast?_cons_cons]
    · right
      rw [dropWs_fix a as (by simpa using ha)]

/-- The last character of a stripped list is not a space. -/
lemma stripL_last (l : List Char) :
    stripL l = [] ∨ ∃ c, (stripL l).getLast? = some c ∧ isPySpace c = false := by
  rcases dropWs_head l.reverse with h | ⟨c, cs, h, hc⟩
  · left
    unfold stripL
    rw [h]
    rfl
  · have hm : ((dropWs l.reverse).reverse).getLast? = some c := by
      rw [h, List.getLast?_reverse]
      rfl
    rcases getLast?_dropWs ((dropWs l.reverse).reverse) with h2 | h2
    · left
      unfold stripL
      exact h2
    · right
      exact ⟨c, by unfold stripL; rw [h2, hm], hc⟩

/-- `stripL` is idempotent. -/
lemma stripL_idem (q : List Char) : stripL (stripL q) = stripL q := by
  rcases stripL_last q with h | ⟨c, hlast, hc⟩
  · rw [h]
    rfl
  · have hrevhead : (stripL q).reverse.head? = some c := by
      rw [List.head?_reverse]
      exact hlast
    obtain ⟨t, ht⟩ : ∃ t, (stripL q).reverse = c :: t := by
      cases hrev : (stripL q).reverse with
      | nil => rw [hrev] at hrevhead; simp at hrevhead
      | cons d ds =>
        rw [hrev] at hrevhead
        simp only [List.head?_cons, Option.some_inj] at hrevhead
        exact ⟨ds, by rw [hrevhead]⟩
    show dropWs ((dropWs (stripL q).reverse).reverse) = stripL q
    rw [ht, dropWs_fix c t hc, ← ht, List.reverse_reverse]
    rcases stripL_head q with h2 | ⟨d, ds, h2, hd⟩
    · rw [h2]
      rfl
    · rw [h2]
      exact dropWs_fix d ds hd

/-- Stripping `' ' :: p` for an already-stripped nonempty `p` gives `p`. -/
lemma stripL_space_cons (p : List Char) (hp : stripL p = p) (hne : p ≠ []) :
    stripL (' ' :: p) = p := by
  rcases stripL_last p with h | ⟨c, hlast, hc⟩
  · rw [hp] at h
    exact absurd h hne
  · rw [hp] at hlast
    have hrevhead : p.reverse.head? = some c := by
      rw [List.head?_reverse]
      exact hlast
    obtain ⟨t, ht⟩ : ∃ t, p.reverse = c :: t := by
      cases hrev : p.reverse with
      | nil => rw [hrev] at hrevhead; simp at hrevhead
      | cons d ds =>
        rw [hrev] at hrevhead
        simp only [List.head?_cons, Option.some_inj] at hrevhead
        exact ⟨ds, by rw [hrevhead]⟩
    show dropWs ((dropWs (' ' :: p).reverse).reverse) = p
    rw [List.reverse_cons, ht]
    rw [show (c :: t) ++ [' '] = c :: (t ++ [' ']) from by simp]
    rw [dropWs_fix c (t ++ [' ']) hc]
    have hrev2 : (c :: (t ++ [' '])).reverse = ' ' :: p := by
      rw [show (c :: (t ++ [' '])) = (c :: t) ++ [' '] from by simp]
      rw [List.reverse_append, ← ht, List.reverse_reverse]
      rfl
    rw [hrev2]
    rw [show dropWs (' ' :: p) = dropWs p from rfl]
    rcases stripL_head p with h2 | ⟨d, ds, h2, hd⟩
    · rw [hp] at h2
      exact absurd h2 hne
    · rw [hp] at h2
      rw [h2]
      exact dropWs_fix d ds hd

/-- `String.toList` distributes over append. -/
lemma strToList_append (s t : String) : (s ++ t).toList = s.toList ++ t.toList := by
  cases s
  cases t
  rfl

/-- Splitting the capped-and-terminated join of three clean sentence pieces
recovers exactly the three pieces. -/
lemma sentencesL_triple (p1 p2 p3 : List Char)
    (h1 : p1 ≠ []) (h2 : p2 ≠ []) (h3 : p3 ≠ [])
    (s1 : stripL p1 = p1) (s2 : stripL p2 = p2) (s3 : stripL p3 = p3)
    (t1 : ∀ c ∈ p1, isTermChar c = false) (t2 : ∀ c ∈ p2, isTermChar c = false)
    (t3 : ∀ c ∈ p3, isTermChar c = false) :
    sentencesL (joinDot [p1, p2, p3] ++ ['.']) = [p1, p2, p3] := by
  have t2' : ∀ c ∈ ' ' :: p2, isTermChar c = false := by
    intro c hc
    rcases List.mem_cons.mp hc with rfl | hc
    · rfl
    · exact t2 c hc
  have t3' : ∀ c ∈ ' ' :: p3, isTermChar c = false := by
    intro c hc
    rcases List.mem_cons.mp hc with rfl | hc
    · rfl
    · exact t3 c hc
  have hjoin : joinDot [p1, p2, p3] ++ ['.'] =
      p1 ++ '.' :: ((' ' :: p2) ++ '.' :: ((' ' :: p3) ++ '.' :: ([] : List Char))) := by
    show (p1 ++ '.' :: ' ' :: (p2 ++ '.' :: ' ' :: p3)) ++ ['.'] = _
    simp
  rw [hjoin]
  unfold sentencesL
  rw [splitTermL_append p1 '.' _ t1 rfl,
    splitTermL_append (' ' :: p2) '.' _ t2' rfl,
    splitTermL_append (' ' :: p3) '.' _ t3' rfl]
  rw [show splitTermL ([] : List Char) = [[]] from rfl]
  have hb1 : p1.isEmpty = false := by
    cases p1
    · exact absurd rfl h1
    · rfl
  have hb2 : p2.isEmpty = false := by
    cases p2
    · exact absurd rfl h2
    · rfl
  have hb3 : p3.isEmpty = false := by
    cases p3
    · exact absurd rfl h3
    · rfl
  simp only [List.map_cons, List.map_nil, s1, stripL_space_cons p2 s2 h2,
    stripL_space_cons p3 s3 h3, show stripL ([] : List Char) = [] from rfl]
  simp [List.filter, hb1, hb2, hb3]

/-- Every piece of `sentencesL` is nonempty, stripped, and terminator-free. -/
lemma sentencesL_piece_facts (l : List Char) (p : List Char)
    (hp : p ∈ sentencesL l) :
    p ≠ [] ∧ stripL p = p ∧ ∀ c ∈ p, isTermChar c = false := by
  unfold sentencesL at hp
  rw [List.mem_filter] at hp
  obtain ⟨hmap, hflag⟩ := hp
  obtain ⟨q, hq, rfl⟩ := List.mem_map.mp hmap
  refine ⟨?_, stripL_idem q, ?_⟩
  · intro hnil
    rw [hnil] at hflag
    simp at hflag
  · intro c hc
    exact splitTermL_noTerm l q hq c (mem_stripL q c hc)

/-- The `_add_citation` cap always leaves the body at three sentences or
fewer. -/
lemma cappedBody_le3 (a : String) : sentenceCount (cappedBody a) ≤ 3 := by
  unfold cappedBody
  dsimp only []
  split
  next hgt =>
    obtain ⟨p1, r1, e1⟩ : ∃ p r, sentencesL a.toList = p :: r := by
      cases h : sentencesL a.toList with
      | nil => rw [h] at hgt; simp at hgt
      | cons p r => exact ⟨p, r, rfl⟩
    obtain ⟨p2, r2, e2⟩ : ∃ p r, r1 = p :: r := by
      cases h : r1 with
      | nil => rw [e1, h] at hgt; simp at hgt
      | cons p r => exact ⟨p, r, rfl⟩
    obtain ⟨p3, r3, e3⟩ : ∃ p r, r2 = p :: r := by
      cases h : r2 with
      | nil => rw [e1, e2, h] at hgt; simp at hgt
      | cons p r => exact ⟨p, r, rfl⟩
    have hss : sentencesL a.toList = p1 :: p2 :: p3 :: r3 := by rw [e1, e2, e3]
    have f1 := sentencesL_piece_facts a.toList p1 (by rw [hss]; simp)
    have f2 := sentencesL_piece_facts a.toList p2 (by rw [hss]; simp)
    have f3 := sentencesL_piece_facts a.toList p3 (by rw [hss]; simp)
    have htake : (sentencesL a.toList).take 3 = [p1, p2, p3] := by rw [hss]; rfl
    rw [htake]
    have hcl : p3.getLast? = some (p3.getLast f3.1) :=
      Option.mem_def.mp (List.getLast_mem_getLast? f3.1)
    have hct : isTermChar (p3.getLast f3.1) = false :=
      f3.2.2 _ (List.getLast_mem f3.1)
    have hjoin_last : (joinDot [p1, p2, p3]).getLast? = some (p3.getLast f3.1) := by
      show (p1 ++ '.' :: ' ' :: (p2 ++ '.' :: ' ' :: p3)).getLast? = _
      have hsplit : p1 ++ '.' :: ' ' :: (p2 ++ '.' :: ' ' :: p3) =
          (p1 ++ ['.', ' '] ++ p2 ++ ['.', ' ']) ++ p3 := by simp
      rw [hsplit, List.getLast?_append, hcl]
      rfl
    have hterm : endsTermB ⟨joinDot [p1, p2, p3]⟩ = false := by
      unfold endsTermB
      rw [show (⟨joinDot [p1, p2, p3]⟩ : String).toList = joinDot [p1, p2, p3] from rfl]
      rw [hjoin_last]
      exact hct
    rw [if_neg (by simp [hterm])]
    unfold sentenceCount
    rw [strToList_append,
      show (⟨joinDot [p1, p2, p3]⟩ : String).toList = joinDot [p1, p2, p3] from rfl,
      show ("." : String).toList = ['.'] from rfl,
      sentencesL_triple p1 p2 p3 f1.1 f2.1 f3.1 f1.2.1 f2.2.1 f3.2.1
        f1.2.2 f2.2.2 f3.2.2]
    simp
  next hle =>
    unfold sentenceCount
    omega

/-- A list is a prefix of itself extended on the right. -/
lemma leadsL_self_append (n m : List Char) : leadsL n (n ++ m) = true := by
  induction n with
  | nil => rfl
  | cons a as ih => simp [leadsL, ih]

/-- A list occurs in itself extended on the right. -/
lemma subL_self_append (n m : List Char) : subL n (n ++ m) = true := by
  cases n with
  | nil => cases m <;> simp [subL, leadsL]
  | cons a as =>
    show (leadsL (a :: as) (a :: (as ++ m)) || subL (a :: as) (as ++ m)) = true
    rw [show a :: (as ++ m) = (a :: as) ++ m from rfl, leadsL_self_append]
    rfl

/-- Occurrence is preserved by prepending. -/
lemma subL_append_left (n pre l : List Char) (h : subL n l = true) :
    subL n (pre ++ l) = true := by
  induction pre with
  | nil => exact h
  | cons c cs ih =>
    show (leadsL n (c :: (cs ++ l)) || subL n (cs ++ l)) = true
    rw [ih]
    simp

/-- The citation banner is always a substring of `_add_citation`'s output. -/
lemma containsStr_addCitation (a link ts : String) :
    containsStr "Last updated from sources: " (addCitation a link ts) = true := by
  unfold addCitation
  dsimp only []
  split <;>
  · unfold containsStr
    simp only [strToList_append, List.append_assoc]
    apply subL_append_left
    apply subL_append_left
    exact subL_self_append _ _

/-- C10 (amended: the 3-sentence cap and the citation banner apply only
when the no-information hedge is absent; a hedged answer is returned
unmodified, with no cap): for a successfully-answered query (non-greeting,
non-empty sources) whose processed answer is not hedged, the formatter
appends the citation after capping the body at three sentences, and the
final answer contains `"Last updated from sources:"`. -/
theorem C10_answer_format_contract (cfg : FundSourcesConfig)
    (today answer : String) (sources : List SrcDict) (fund_name : Option String)
    (hs : sources ≠ [])
    (hni : indicatesNoInformation (removePerformanceClaims answer) = false) :
    (formatAnswer cfg today answer sources fund_name false).answer =
      addCitation (removePerformanceClaims answer)
        (getCitationLink cfg sources fund_name) today ∧
    sentenceCount (cappedBody (removePerformanceClaims answer)) ≤ 3 ∧
    containsStr "Last updated from sources: "
      (formatAnswer cfg today answer sources fund_name false).answer = true := by
  have hemp : sources.isEmpty = false := by
    cases sources
    · exact absurd rfl hs
    · rfl
  have hform : (formatAnswer cfg today answer sources fund_name false).answer =
      addCitation (removePerformanceClaims answer)
        (getCitationLink cfg sources fund_name) today := by
    unfold formatAnswer
    dsimp only []
    rw [hni, hemp]
    simp
  exact ⟨hform, cappedBody_le3 _,
    by rw [hform]; exact containsStr_addCitation _ _ _⟩

/-- Witness for C10 at a concrete unhedged answer with one source. -/
theorem C10_witness :
    ([⟨some "F", some "basic_info", some 0, none⟩] : List SrcDict) ≠ [] ∧
    indicatesNoInformation
      (removePerformanceClaims "The expense ratio is small.") = false ∧
    containsStr "Last updated from sources: "
      (formatAnswer [] "2026-02-03" "The expense ratio is small."
        [⟨some "F", some "basic_info", some 0, none⟩] none false).answer = true := by
  have hs : ([⟨some "F", some "basic_info", some 0, none⟩] : List SrcDict) ≠ [] :=
    List.cons_ne_nil _ _
  have hni : indicatesNoInformation
      (removePerformanceClaims "The expense ratio is small.") = false := by decide
  exact ⟨hs, hni,
    (C10_answer_format_contract [] "2026-02-03" "The expense ratio is small."
      [⟨some "F", some "basic_info", some 0, none⟩] none hs hni).2.2⟩

/-- Counterexample to C10 as stated: a hedged five-sentence answer with
non-empty sources is returned unmodified, so the main body exceeds three
sentences. -/
theorem C10_counterexample :
    (formatAnswer [] "2026-02-03" "no data. a b. c d. e f. g h."
        [⟨some "F", some "basic_info", some 0, none⟩] none false).answer =
      "no data. a b. c d. e f. g h." ∧
    sentenceCount "no data. a b. c d. e f. g h." = 5 ∧
    ¬ (sentenceCount "no data. a b. c d. e f. g h." ≤ 3) := by
  refine ⟨?_, by decide, by decide⟩
  have h1 : removePerformanceClaims "no data. a b. c d. e f. g h." =
      "no data. a b. c d. e f. g h." := by decide
  have h2 : indicatesNoInformation "no data. a b. c d. e f. g h." = true := by decide
  unfold formatAnswer
  dsimp only []
  rw [h1, h2]
  simp
